import Mathlib

/-! gl-cars: vehicle controller, input sampling and settings callbacks

Shallow embedding of `src/App.cpp` (scene construction and the per-frame
controller inside `main`, `processInput`, the mouse callbacks and the GTK
settings callbacks), of class `Camera` (`Camera.hpp`) and of the collision
flags of `Physics.hpp`.  C++ `float` values are embedded as exact rationals;
`bool`/`short` values as `Bool`/`Int`.
-/

namespace GlCars

/-! ## Data model -/

/-- Three-component vector (`btVector3`) with exact components. -/
structure Vec3 where
  x : ℚ
  y : ℚ
  z : ℚ
deriving DecidableEq

/-- Keys sampled by `processInput` through `glfwGetKey`; `true` is `GLFW_PRESS`,
`false` is `GLFW_RELEASE` (the only two values `glfwGetKey` returns). -/
structure Keys where
  tab : Bool
  left : Bool
  right : Bool
  up : Bool
  down : Bool
  space : Bool
  r : Bool
  t : Bool
deriving DecidableEq

/-- The globals of `App.cpp` that `processInput` reads and writes
(the free camera pose moved by W/A/S/D and the window-close request are not part
of this record). -/
structure InputState where
  cameraFollow : Bool
  switched : Bool
  acceleration : Int
  steering : ℚ
  handbrake : Bool
  getUp : Bool
  gotUp : Bool
  jump : Bool
  jumped : Bool
deriving DecidableEq

/-- Initial values of the globals, `App.cpp` lines 49-66. -/
def InputState.init : InputState where
  cameraFollow := true
  switched := false
  acceleration := 0
  steering := 0
  handbrake := false
  getUp := false
  gotUp := false
  jump := false
  jumped := false

/-- Local `steering_limit = 1.0f` of `processInput`. -/
def steering_limit : ℚ := 1

/-- Local `steering_speed = 0.05f` of `processInput`. -/
def steering_speed : ℚ := 5 / 100

/-- The C++ expression `(steering > 0) - (steering < 0)`. -/
def signTerm (steering : ℚ) : ℚ :=
  (if steering > 0 then 1 else 0) - (if steering < 0 then 1 else 0)

/-- Steering block of `processInput` (lines 794-805). -/
def steeringUpdate (left right : Bool) (steering : ℚ) : ℚ :=
  if left then
    (if steering > -steering_limit then steering - steering_speed else steering)
  else if right then
    (if steering < steering_limit then steering + steering_speed else steering)
  else
    let s := steering - steering_speed * signTerm steering
    if s < steering_speed ∧ s > -steering_speed then 0 else s

/-- Camera-mode block of `processInput` (lines 763-775): the pair
`(cameraFollow, switched)` after the block. -/
def cameraSwitch (tab : Bool) (cameraFollow switched : Bool) : Bool × Bool :=
  let p : Bool × Bool :=
    if tab ∧ ¬ switched then (!cameraFollow, true) else (cameraFollow, switched)
  if ¬ tab then (p.1, false) else p

/-- Throttle block of `processInput` (lines 807-815): the pair
`(acceleration, handbrake)` after the block. -/
def throttleUpdate (up down : Bool) (handbrake : Bool) : Int × Bool :=
  if up then (1, handbrake)
  else if down then (-1, handbrake)
  else (0, true)

/-- Handbrake block of `processInput` (lines 817-822). -/
def handbrakeUpdate (space : Bool) : Bool :=
  if space then true else false

/-- One-shot block of `processInput` (lines 824-833 for R with `getUp`/`gotUp`,
lines 835-844 for T with `jump`/`jumped`): the pair `(fire, latch)` after the
block. -/
def oneShot (key : Bool) (latch : Bool) : Bool × Bool :=
  let p : Bool × Bool := if key ∧ ¬ latch then (true, true) else (false, latch)
  if ¬ key then (p.1, false) else p

/-- The function `processInput` of `App.cpp`, one call per frame. -/
def processInput (k : Keys) (st : InputState) : InputState :=
  let cam := cameraSwitch k.tab st.cameraFollow st.switched
  let steering := steeringUpdate k.left k.right st.steering
  let thr := throttleUpdate k.up k.down st.handbrake
  let handbrake := handbrakeUpdate k.space
  let up := oneShot k.r st.gotUp
  let jp := oneShot k.t st.jumped
  { cameraFollow := cam.1
    switched := cam.2
    acceleration := thr.1
    steering := steering
    handbrake := handbrake
    getUp := up.1
    gotUp := up.2
    jump := jp.1
    jumped := jp.2 }

/-- No key held. -/
def Keys.none : Keys :=
  ⟨false, false, false, false, false, false, false, false⟩

/-- The no-steering-key branch of `processInput`, as a map on the steering value. -/
def decay (s : ℚ) : ℚ :=
  (processInput Keys.none { InputState.init with steering := s }).steering

/-- States after each frame when `processInput` runs once per frame. -/
def runFrames (st : InputState) : List Keys → List InputState
  | [] => []
  | k :: ks => processInput k st :: runFrames (processInput k st) ks

/-- State after the last frame. -/
def finalState (st : InputState) (ks : List Keys) : InputState :=
  ks.foldl (fun s k => processInput k s) st

/-! ## Vehicle bodies, joints and tunables -/

/-- The part of a `btRigidBody` the application writes after creation: the
arguments last passed to `setMassProps`, `setDamping` and `setFriction`. -/
structure Body where
  mass : ℚ
  inertia : Vec3
  linDamping : ℚ
  angDamping : ℚ
  friction : ℚ
deriving DecidableEq

/-- The part of a `btGeneric6DofSpringConstraint` the application writes: the
arguments last passed to the limit setters and to `setStiffness(1, _)` /
`setDamping(1, _)`. -/
structure Joint where
  linearLower : Vec3
  linearUpper : Vec3
  angularLower : Vec3
  angularUpper : Vec3
  stiffness : ℚ
  damping : ℚ
deriving DecidableEq

/-- The car globals of `App.cpp`: tunables (lines 63-79), the five bodies
`car`, `t1..t4` (front-left, front-right, rear-left, rear-right) and the four
joints `c1..c4`. -/
structure Vehicle where
  maxAcceleration : ℚ
  maxVelocity : ℚ
  car_mass : ℚ
  tyre_friction : ℚ
  tyre_stiffness : ℚ
  tyre_damping : ℚ
  tyre_steering_angle : ℚ
  assist : ℚ
  car : Body
  t1 : Body
  t2 : Body
  t3 : Body
  t4 : Body
  c1 : Joint
  c2 : Joint
  c3 : Joint
  c4 : Joint
deriving DecidableEq

/-- Constant `cLinDamp = 0.02f`. -/
def cLinDamp : ℚ := 2 / 100

/-- Constant `cAngDamp = 0.4f`. -/
def cAngDamp : ℚ := 4 / 10

/-- Constant `tLinDamp = 0.01f`. -/
def tLinDamp : ℚ := 1 / 100

/-- Constant `tAngDamp = 0.2f`. -/
def tAngDamp : ℚ := 2 / 10

/-- The method `btRigidBody::setDamping` as a write of its two arguments. -/
def Body.setDamping (b : Body) (lin ang : ℚ) : Body :=
  { b with linDamping := lin, angDamping := ang }

/-- The method `btRigidBody::setMassProps` as a write of its two arguments. -/
def Body.setMassProps (b : Body) (mass : ℚ) (inertia : Vec3) : Body :=
  { b with mass := mass, inertia := inertia }

/-- Damping given to the chassis when the vehicle is created (line 435):
`car->setDamping(cLinDamp*assist, cAngDamp*assist)`. -/
def createCarDamping (b : Body) (assist : ℚ) : Body :=
  b.setDamping (cLinDamp * assist) (cAngDamp * assist)

/-- Damping given to each wheel when the vehicle is created (lines 444, 467,
490, 512): `t->setDamping(tLinDamp*assist, tAngDamp*assist)`. -/
def createTyreDamping (b : Body) (assist : ℚ) : Body :=
  b.setDamping (tLinDamp * assist) (tAngDamp * assist)

/-- The callback `stability_callback` (lines 970-978); `value` is the slider
value read with `gtk_range_get_value`. -/
def stability_callback (value : ℚ) (v : Vehicle) : Vehicle :=
  let assist := value
  { v with
    assist := assist
    car := v.car.setDamping (tLinDamp * assist) (tAngDamp * assist)
    t1 := v.t1.setDamping (tLinDamp * assist) (tAngDamp * assist)
    t2 := v.t2.setDamping (tLinDamp * assist) (tAngDamp * assist)
    t3 := v.t3.setDamping (tLinDamp * assist) (tAngDamp * assist)
    t4 := v.t4.setDamping (tLinDamp * assist) (tAngDamp * assist) }

/-- The callback `mass_callback` (lines 925-931).  The chassis collision shape
belongs to the physics library; its method `calculateLocalInertia(mass, out)`
is the parameter `calculateLocalInertia`. -/
def mass_callback (calculateLocalInertia : ℚ → Vec3) (value : ℚ) (v : Vehicle) : Vehicle :=
  let car_mass := value
  let inertia := calculateLocalInertia car_mass
  { v with
    car_mass := car_mass
    car := v.car.setMassProps car_mass inertia }

/-! ## Per-frame controller (`main`, lines 551-599) -/

/-- The local `short braking` after the acceleration block (lines 552-559). -/
def braking (acceleration : Int) (linearVelocity maxVelocity : ℚ) : Int :=
  if acceleration < 0 ∧ linearVelocity > maxVelocity / 10 then 0 else 1

/-- The local `float torque` of line 561. -/
def torque (maxAcceleration : ℚ) (acceleration : Int) (steering linearVelocity : ℚ) : ℚ :=
  -maxAcceleration * acceleration *
    (1 - (|steering| * (if linearVelocity > 10 then 1 else 0)) / 2)

/-- Whether the frame reaches line 561 and applies drive torque. -/
def torqueApplied (acceleration : Int) (linearVelocity maxVelocity : ℚ) : Bool :=
  if acceleration < 0 ∧ linearVelocity > maxVelocity / 10 then false
  else decide (linearVelocity < maxVelocity / (1 + 9 * (if acceleration < 0 then 1 else 0)))

/-- The four wheel bodies. -/
inductive Wheel where
  | t1 | t2 | t3 | t4
deriving DecidableEq

/-- The `applyTorque` calls of one frame (lines 557-569), in order; each entry
is the wheel and the scalar `torque` of the vector `rot * (torque, 0, 0)`. -/
def driveTorques (maxAcceleration maxVelocity : ℚ) (acceleration : Int)
    (steering linearVelocity : ℚ) (handbrake : Bool) : List (Wheel × ℚ) :=
  if torqueApplied acceleration linearVelocity maxVelocity then
    let tq := torque maxAcceleration acceleration steering linearVelocity
    [(Wheel.t1, tq), (Wheel.t2, tq)] ++
      (if handbrake then [] else [(Wheel.t3, tq), (Wheel.t4, tq)])
  else []

/-- Write of both angular limits of a joint. -/
def Joint.setAngular (j : Joint) (lower upper : Vec3) : Joint :=
  { j with angularLower := lower, angularUpper := upper }

/-- Braking / steering / handbrake limit writes of one frame (lines 571-588),
for the value `b` of the local `braking`. -/
def updateLimits (b : Int) (steering : ℚ) (handbrake : Bool) (v : Vehicle) : Vehicle :=
  let front_lo : Vec3 := ⟨b, v.tyre_steering_angle * steering, 0⟩
  let front_up : Vec3 := ⟨-b, v.tyre_steering_angle * steering, 0⟩
  let rear_lo : Vec3 := if handbrake then ⟨0, 0, 0⟩ else ⟨b, 0, 0⟩
  let rear_up : Vec3 := if handbrake then ⟨0, 0, 0⟩ else ⟨-b, 0, 0⟩
  { v with
    c1 := v.c1.setAngular front_lo front_up
    c2 := v.c2.setAngular front_lo front_up
    c3 := v.c3.setAngular rear_lo rear_up
    c4 := v.c4.setAngular rear_lo rear_up }

/-- Impulses applied to the chassis in a frame (lines 591-599): the recovery
torque impulse `rot * (0, 0, 12000)` when `getUp`, the central impulse
`(0, 10000, 0)` when `jump`. -/
inductive Impulse where
  | recovery
  | jumpUp
deriving DecidableEq

/-- The impulse calls of one frame, from the flags left by `processInput`. -/
def frameImpulses (st : InputState) : List Impulse :=
  (if st.getUp then [Impulse.recovery] else []) ++
    (if st.jump then [Impulse.jumpUp] else [])

/-- Limit writes of one frame inside the game loop: `braking` is computed from
the throttle intent and the chassis speed, then the limits are written. -/
def frameLimits (st : InputState) (linearVelocity : ℚ) (v : Vehicle) : Vehicle :=
  updateLimits (braking st.acceleration linearVelocity v.maxVelocity) st.steering
    st.handbrake v

/-! ## Collision filtering (`Physics.hpp` lines 24-30 and the creation calls) -/

/-- Low 16 bits of a C++ integer, as a bit pattern. -/
def bits16 (x : Int) : Nat := (x % 65536).toNat

/-- The signed 16-bit value (`short`) with the given bit pattern. -/
def ofBits16 (n : Nat) : Int := if n % 65536 < 32768 then (n % 65536 : Nat) else (n % 65536 : Nat) - 65536

/-- Bitwise `&` on 16-bit signed values. -/
def and16 (a b : Int) : Int := ofBits16 (Nat.land (bits16 a) (bits16 b))

/-- Bitwise `|` on 16-bit signed values. -/
def or16 (a b : Int) : Int := ofBits16 (Nat.lor (bits16 a) (bits16 b))

/-- Bitwise `^` on 16-bit signed values (the low 16 bits of the `int` result,
which is what the conversion to the `short` parameter keeps). -/
def xor16 (a b : Int) : Int := ofBits16 (Nat.xor (bits16 a) (bits16 b))

/-- Enumerator `COLL_TERRAIN = 1`. -/
def COLL_TERRAIN : Int := 1

/-- Enumerator `COLL_CHASSIS = 1 << 1`. -/
def COLL_CHASSIS : Int := ((1 <<< 1 : Nat) : Int)

/-- Enumerator `COLL_TYRE = 1 << 2`. -/
def COLL_TYRE : Int := ((1 <<< 2 : Nat) : Int)

/-- Enumerator `COLL_CAR = COLL_CHASSIS | COLL_TYRE`. -/
def COLL_CAR : Int := or16 COLL_CHASSIS COLL_TYRE

/-- Enumerator `COLL_EVERYTHING = -1`. -/
def COLL_EVERYTHING : Int := -1

/-- The `short group, short mask` arguments of one `createRigidBody` call. -/
structure CollisionFilter where
  group : Int
  mask : Int
deriving DecidableEq

/-- Filter of the chassis (line 433). -/
def chassisFilter : CollisionFilter := ⟨COLL_CHASSIS, xor16 COLL_EVERYTHING COLL_CAR⟩

/-- Filter of each wheel (lines 442, 465, 488, 510). -/
def tyreFilter : CollisionFilter := ⟨COLL_TYRE, xor16 COLL_EVERYTHING COLL_CAR⟩

/-- Filter of every terrain tile and wall (lines 395, 398, 415-425). -/
def terrainFilter : CollisionFilter := ⟨COLL_TERRAIN, COLL_EVERYTHING⟩

/-- Constant `grid_width`. -/
def grid_width : Nat := 5

/-- Constant `grid_height`. -/
def grid_height : Nat := 8

/-- The table `track[grid_height][grid_width]` (lines 372-381). -/
def track : List (List Nat) :=
  [[0, 0, 0, 0, 0],
   [0, 1, 1, 1, 0],
   [0, 1, 0, 1, 0],
   [0, 1, 0, 1, 0],
   [0, 1, 0, 1, 0],
   [0, 1, 0, 1, 0],
   [0, 1, 1, 1, 0],
   [0, 0, 0, 0, 0]]

/-- Filters of the terrain bodies created by the loops of lines 387-402, in
creation order (`i` outer, `j` inner; a body is created when `track[j][i]` is
`0` or `1`). -/
def tileFilters : List CollisionFilter :=
  (List.range grid_width).flatMap fun i =>
    (List.range grid_height).filterMap fun j =>
      match (track.getD j []).getD i 2 with
      | 0 => some terrainFilter
      | 1 => some terrainFilter
      | _ => none

/-- Filters of the four invisible walls (lines 415-425). -/
def wallFilters : List CollisionFilter :=
  [terrainFilter, terrainFilter, terrainFilter, terrainFilter]

/-- Filters of the chassis and the four wheels, in creation order. -/
def carFilters : List CollisionFilter :=
  [chassisFilter, tyreFilter, tyreFilter, tyreFilter, tyreFilter]

/-- Modelled from the spec: the broadphase filter of the physics library (not
under `src/`): bodies A and B are tested for collision iff
`(groupA & maskB) != 0` and `(groupB & maskA) != 0`, on 16-bit signed values. -/
def needsCollision (a b : CollisionFilter) : Bool :=
  decide (and16 a.group b.mask ≠ 0) && decide (and16 b.group a.mask ≠ 0)

/-! ## World step (`main`, lines 534 and 602) -/

/-- Local `maxSecPerFrame = 1.0f / 50.0f`. -/
def maxSecPerFrame : ℚ := 1 / 50

/-- Arguments of the `stepSimulation` call of one frame: time step and maximum
number of sub-steps. -/
def stepSimulationArgs (deltaTime : ℚ) : ℚ × Nat :=
  (if deltaTime < maxSecPerFrame then deltaTime else maxSecPerFrame, 10)

/-! ## Settings panel (`main`, lines 137-198, and the callbacks, lines 925-1018) -/

/-- Current values of the seven sliders of the settings panel. -/
structure Panel where
  mass : ℚ
  stiffness : ℚ
  damping : ℚ
  friction : ℚ
  steer : ℚ
  accelerate : ℚ
  stability : ℚ
deriving DecidableEq

/-- The settings panel together with the vehicle its callbacks write to. -/
structure App where
  panel : Panel
  vehicle : Vehicle
deriving DecidableEq

/-- The write `btRigidBody::setFriction`. -/
def Body.setFriction (b : Body) (friction : ℚ) : Body :=
  { b with friction := friction }

/-- The write `setStiffness(1, _)` of a joint. -/
def Joint.setStiffness (j : Joint) (stiffness : ℚ) : Joint :=
  { j with stiffness := stiffness }

/-- The write `setDamping(1, _)` of a joint. -/
def Joint.setDamping (j : Joint) (damping : ℚ) : Joint :=
  { j with damping := damping }

/-- The callback `stiffness_callback` (lines 933-940). -/
def stiffness_callback (value : ℚ) (v : Vehicle) : Vehicle :=
  let tyre_stiffness := value
  { v with
    tyre_stiffness := tyre_stiffness
    c1 := v.c1.setStiffness tyre_stiffness
    c2 := v.c2.setStiffness tyre_stiffness
    c3 := v.c3.setStiffness tyre_stiffness
    c4 := v.c4.setStiffness tyre_stiffness }

/-- The callback `damping_callback` (lines 942-949). -/
def damping_callback (value : ℚ) (v : Vehicle) : Vehicle :=
  let tyre_damping := value / 10000000
  { v with
    tyre_damping := tyre_damping
    c1 := v.c1.setDamping tyre_damping
    c2 := v.c2.setDamping tyre_damping
    c3 := v.c3.setDamping tyre_damping
    c4 := v.c4.setDamping tyre_damping }

/-- The callback `friction_callback` (lines 951-958). -/
def friction_callback (value : ℚ) (v : Vehicle) : Vehicle :=
  let tyre_friction := value
  { v with
    tyre_friction := tyre_friction
    t1 := v.t1.setFriction tyre_friction
    t2 := v.t2.setFriction tyre_friction
    t3 := v.t3.setFriction tyre_friction
    t4 := v.t4.setFriction tyre_friction }

/-- The callback `steering_callback` (lines 960-963). -/
def steering_callback (value : ℚ) (v : Vehicle) : Vehicle :=
  { v with tyre_steering_angle := value }

/-- The callback `acceleration_callback` (lines 965-968). -/
def acceleration_callback (value : ℚ) (v : Vehicle) : Vehicle :=
  { v with maxAcceleration := value }

/-- Modelled from the spec: the value a slider of the toolkit (not under
`src/`) takes when `gtk_range_set_value` sets `x` on it: `x` clamped to the
range `[lower, upper]` given to `gtk_scale_new_with_range`. -/
def sliderValue (lower upper x : ℚ) : ℚ :=
  if x < lower then lower else if x > upper then upper else x

/-- Call `gtk_range_set_value(mass, x)` on the slider created with range
`500..3000` (line 138) and connected to `mass_callback` (line 234).  Modelled
from the spec for the toolkit part: the connected callback runs only when the
slider value changes. -/
def setMassSlider (calculateLocalInertia : ℚ → Vec3) (x : ℚ) (a : App) : App :=
  let y := sliderValue 500 3000 x
  if y = a.panel.mass then a
  else { panel := { a.panel with mass := y }
         vehicle := mass_callback calculateLocalInertia y a.vehicle }

/-- Call `gtk_range_set_value(stiffness, x)`: range `50000..150000` (line 146),
callback `stiffness_callback` (line 235). -/
def setStiffnessSlider (x : ℚ) (a : App) : App :=
  let y := sliderValue 50000 150000 x
  if y = a.panel.stiffness then a
  else { panel := { a.panel with stiffness := y }
         vehicle := stiffness_callback y a.vehicle }

/-- Call `gtk_range_set_value(damping, x)`: range `50..500` (line 154),
callback `damping_callback` (line 236). -/
def setDampingSlider (x : ℚ) (a : App) : App :=
  let y := sliderValue 50 500 x
  if y = a.panel.damping then a
  else { panel := { a.panel with damping := y }
         vehicle := damping_callback y a.vehicle }

/-- Call `gtk_range_set_value(friction, x)`: range `0..10` (line 162),
callback `friction_callback` (line 237). -/
def setFrictionSlider (x : ℚ) (a : App) : App :=
  let y := sliderValue 0 10 x
  if y = a.panel.friction then a
  else { panel := { a.panel with friction := y }
         vehicle := friction_callback y a.vehicle }

/-- Call `gtk_range_set_value(steer, x)`: range `0..1` (line 171), callback
`steering_callback` (line 238). -/
def setSteerSlider (x : ℚ) (a : App) : App :=
  let y := sliderValue 0 1 x
  if y = a.panel.steer then a
  else { panel := { a.panel with steer := y }
         vehicle := steering_callback y a.vehicle }

/-- Call `gtk_range_set_value(accelerate, x)`: range `0..1000` (line 181),
callback `acceleration_callback` (line 239). -/
def setAccelerateSlider (x : ℚ) (a : App) : App :=
  let y := sliderValue 0 1000 x
  if y = a.panel.accelerate then a
  else { panel := { a.panel with accelerate := y }
         vehicle := acceleration_callback y a.vehicle }

/-- The six `gtk_range_set_value` calls shared by the preset callbacks, in
source order: mass, stiffness, damping, friction, steer, accelerate. -/
def applyPreset (calculateLocalInertia : ℚ → Vec3)
    (mass stiffness damping friction steer accelerate : ℚ) (a : App) : App :=
  setAccelerateSlider accelerate
    (setSteerSlider steer
      (setFrictionSlider friction
        (setDampingSlider damping
          (setStiffnessSlider stiffness
            (setMassSlider calculateLocalInertia mass a)))))

/-- The callback `preset0_callback` ("Normal", lines 980-988). -/
def preset0_callback (calculateLocalInertia : ℚ → Vec3) (a : App) : App :=
  applyPreset calculateLocalInertia 1250 95000 200 (225 / 100) (5 / 10) 350 a

/-- The callback `preset1_callback` ("Muscle Car", lines 990-998). -/
def preset1_callback (calculateLocalInertia : ℚ → Vec3) (a : App) : App :=
  applyPreset calculateLocalInertia 1440 70000 130 (195 / 100) (7 / 10) 480 a

/-- The callback `preset2_callback` ("Pimp My Ride", lines 1000-1008). -/
def preset2_callback (calculateLocalInertia : ℚ → Vec3) (a : App) : App :=
  applyPreset calculateLocalInertia 1560 80000 420 (175 / 100) (69 / 100) 420 a

/-- The callback `preset3_callback` ("Sport", lines 1010-1018). -/
def preset3_callback (calculateLocalInertia : ℚ → Vec3) (a : App) : App :=
  applyPreset calculateLocalInertia 1780 13000 190 (245 / 100) (73 / 100) 680 a

/-- Slider values after panel setup (lines 143-198); the callbacks are
connected afterwards (lines 234-240), so none has run. -/
def startupPanel : Panel where
  mass := 1250
  stiffness := 95000
  damping := 200
  friction := 225 / 100
  steer := 5 / 10
  accelerate := 350
  stability := 5 / 10

/-- A wheel joint as created (lines 451-460 and the three siblings), for the
values of `lowLim`, `upLim`, `tyre_stiffness`, `tyre_damping` at creation and
the angular limits passed at creation. -/
def createJoint (lowLim upLim : ℚ) (angularLower angularUpper : Vec3)
    (tyre_stiffness tyre_damping : ℚ) : Joint where
  linearLower := ⟨0, -lowLim, 0⟩
  linearUpper := ⟨0, -upLim, 0⟩
  angularLower := angularLower
  angularUpper := angularUpper
  stiffness := tyre_stiffness
  damping := tyre_damping

/-- The vehicle after scene construction (lines 355-366 and 427-527).  The
local inertia of each body is computed by the physics library from its shape
at creation; the three results are parameters. -/
def startupVehicle (carInertia frontInertia rearInertia : Vec3) : Vehicle where
  maxAcceleration := 500
  maxVelocity := 50
  car_mass := 1250
  tyre_friction := 235 / 100
  tyre_stiffness := 100000
  tyre_damping := 225 / 10000000
  tyre_steering_angle := 5 / 10
  assist := 5 / 10
  car := createCarDamping ⟨1250, carInertia, 0, 0, 175 / 100⟩ (5 / 10)
  t1 := createTyreDamping ⟨20, frontInertia, 0, 25 / 100, 235 / 100⟩ (5 / 10)
  t2 := createTyreDamping ⟨20, frontInertia, 0, 25 / 100, 235 / 100⟩ (5 / 10)
  t3 := createTyreDamping ⟨25, rearInertia, 0, 25 / 100, 235 / 100⟩ (5 / 10)
  t4 := createTyreDamping ⟨25, rearInertia, 0, 25 / 100, 235 / 100⟩ (5 / 10)
  c1 := createJoint 0 (1 / 10) ⟨1, -(5 / 10), 0⟩ ⟨-1, 5 / 10, 0⟩ 100000 (225 / 10000000)
  c2 := createJoint 0 (1 / 10) ⟨1, -(5 / 10), 0⟩ ⟨-1, 5 / 10, 0⟩ 100000 (225 / 10000000)
  c3 := createJoint 0 (1 / 10) ⟨1, 0, 0⟩ ⟨-1, 0, 0⟩ 100000 (225 / 10000000)
  c4 := createJoint 0 (1 / 10) ⟨1, 0, 0⟩ ⟨-1, 0, 0⟩ 100000 (225 / 10000000)

/-- Panel and vehicle when the game loop starts. -/
def startupApp (carInertia frontInertia rearInertia : Vec3) : App :=
  ⟨startupPanel, startupVehicle carInertia frontInertia rearInertia⟩

/-- Every live tunable agrees with what its setter derives from the current
slider value. -/
def InSync (a : App) : Prop :=
  a.vehicle.car_mass = a.panel.mass ∧
  a.vehicle.tyre_stiffness = a.panel.stiffness ∧
  a.vehicle.tyre_damping = a.panel.damping / 10000000 ∧
  a.vehicle.tyre_friction = a.panel.friction ∧
  a.vehicle.tyre_steering_angle = a.panel.steer ∧
  a.vehicle.maxAcceleration = a.panel.accelerate

/-! ## Camera (`Camera.hpp`) and the mouse callbacks (`App.cpp`, lines 847-891) -/

/-- Constant `YAW = -90.0f`. -/
def YAW : ℚ := -90

/-- Constant `PITCH = -10.0f`. -/
def PITCH : ℚ := -10

/-- Constant `SPEED = 3.0f`. -/
def SPEED : ℚ := 3

/-- Constant `SENSITIVITY = 0.25f`. -/
def SENSITIVITY : ℚ := 25 / 100

/-- The stored attributes of class `Camera`.  The vectors `Front`,
`WorldFront`, `Right` and `Up` are recomputed from `Yaw` and `Pitch` by
`updateCameraVectors` after every change and are not part of this record. -/
structure Camera where
  Position : Vec3
  onGround : Bool
  Yaw : ℚ
  Pitch : ℚ
  MovementSpeed : ℚ
  MouseSensitivity : ℚ
deriving DecidableEq

/-- The constructor `Camera(position, onGround)`. -/
def Camera.new (position : Vec3) (onGround : Bool) : Camera where
  Position := position
  onGround := onGround
  Yaw := YAW
  Pitch := PITCH
  MovementSpeed := SPEED
  MouseSensitivity := SENSITIVITY

/-- The method `Camera::ProcessMouseMovement(xoffset, yoffset, constraintPitch)`. -/
def Camera.ProcessMouseMovement (c : Camera) (xoffset yoffset : ℚ)
    (constraintPitch : Bool) : Camera :=
  let xoffset := xoffset * c.MouseSensitivity
  let yoffset := yoffset * c.MouseSensitivity
  let yaw := c.Yaw + xoffset
  let pitch := c.Pitch + yoffset
  let pitch :=
    if constraintPitch then
      (let p := if pitch > 89 then 89 else pitch
       if p < -89 then -89 else p)
    else pitch
  { c with Yaw := yaw, Pitch := pitch }

/-- A run of `ProcessMouseMovement` calls with the pitch constraint enabled,
one per mouse delta. -/
def Camera.mouseMoves (c : Camera) (deltas : List (ℚ × ℚ)) : Camera :=
  deltas.foldl (fun cam d => cam.ProcessMouseMovement d.1 d.2 true) c

/-- The camera globals of `App.cpp` touched by the mouse and scroll callbacks
(lines 48-56 and 67); `cameraFollow` lives in `InputState`. -/
structure ViewState where
  camera : Camera
  lastX : ℚ
  lastY : ℚ
  firstMouse : Bool
  rotating : Bool
  cameraRadius : ℚ
  basePitch : ℚ
  baseYaw : ℚ
deriving DecidableEq

/-- Initial values of the camera globals (lines 48-56 and 67), with
`SCR_WIDTH = 960` and `SCR_HEIGHT = 540`. -/
def ViewState.init : ViewState where
  camera := Camera.new ⟨0, 25 / 10, 8⟩ false
  lastX := 960 / 2
  lastY := 540 / 2
  firstMouse := true
  rotating := false
  cameraRadius := 8
  basePitch := 0
  baseYaw := 0

/-- The callback `mouse_callback` (lines 847-873), for the current value of
the global `cameraFollow`. -/
def mouse_callback (cameraFollow : Bool) (xpos ypos : ℚ) (s : ViewState) : ViewState :=
  let s1 : ViewState :=
    if s.firstMouse then { s with lastX := xpos, lastY := ypos, firstMouse := false } else s
  let xoffset := xpos - s1.lastX
  let yoffset := s1.lastY - ypos
  let s2 : ViewState := { s1 with lastX := xpos, lastY := ypos }
  if ¬ cameraFollow then
    { s2 with camera := s2.camera.ProcessMouseMovement xoffset yoffset true }
  else if s2.rotating then
    let baseYaw := s2.baseYaw + xoffset
    let basePitch := s2.basePitch + yoffset
    let basePitch := if basePitch > 89 then 89 else basePitch
    let basePitch := if basePitch < -89 then -89 else basePitch
    { s2 with
      baseYaw := baseYaw
      basePitch := basePitch
      camera := s2.camera.ProcessMouseMovement 0 yoffset true }
  else s2

/-- The windowing library's `GLFW_MOUSE_BUTTON_LEFT`. -/
def GLFW_MOUSE_BUTTON_LEFT : Int := 0

/-- The windowing library's `GLFW_PRESS`. -/
def GLFW_PRESS : Int := 1

/-- The callback `mouse_button_callback` (lines 875-880). -/
def mouse_button_callback (button action : Int) (s : ViewState) : ViewState :=
  if button = GLFW_MOUSE_BUTTON_LEFT ∧ action = GLFW_PRESS then { s with rotating := true }
  else { s with rotating := false }

/-- The callback `scroll_callback` (lines 884-891). -/
def scroll_callback (_xoffset yoffset : ℚ) (s : ViewState) : ViewState :=
  let cameraRadius := s.cameraRadius - yoffset / 2
  let basePitch := if s.basePitch > 20 then 20 else s.basePitch
  let basePitch := if basePitch < 0 then 0 else basePitch
  { s with cameraRadius := cameraRadius, basePitch := basePitch }

/-! ## Follow camera (`main`, lines 604-621; `Camera::LookAt`,
`Camera::updateCameraVectors`)

The follow camera uses the mathematics library (`cos`, `sin`, `sqrt`, `atan`).
Its embedding is written over an arbitrary ordered field `K` and takes the
library functions as a parameter, so that it can be run over `ℚ` and stated
over `ℝ`. -/

/-- Three-component vector over `K` (`btVector3`, `glm::vec3`). -/
structure V3 (K : Type) where
  x : K
  y : K
  z : K

/-- Rotation basis `btMatrix3x3`, by rows. -/
structure M3 (K : Type) where
  r0 : V3 K
  r1 : V3 K
  r2 : V3 K

/-- The mathematics library functions the camera code calls:
`cosDeg d = glm::cos(glm::radians(d))`, `sinDeg d = glm::sin(glm::radians(d))`,
`sqrt = glm::sqrt`, `atanDeg y x = glm::degrees(glm::atan(y, x))`. -/
structure Glm (K : Type) where
  cosDeg : K → K
  sinDeg : K → K
  sqrt : K → K
  atanDeg : K → K → K

/-- The attributes of the camera that the follow update reads and writes. -/
structure FollowCam (K : Type) where
  Position : V3 K
  Yaw : K
  Pitch : K

/-- Dot product of a matrix row with a vector. -/
def V3.dot {K : Type} [LinearOrderedField K] (a b : V3 K) : K :=
  a.x * b.x + a.y * b.y + a.z * b.z

/-- The product `btMatrix3x3 * btVector3`. -/
def M3.mulVec {K : Type} [LinearOrderedField K] (m : M3 K) (v : V3 K) : V3 K :=
  ⟨m.r0.dot v, m.r1.dot v, m.r2.dot v⟩

/-- The identity basis. -/
def M3.identity {K : Type} [LinearOrderedField K] : M3 K :=
  ⟨⟨1, 0, 0⟩, ⟨0, 1, 0⟩, ⟨0, 0, 1⟩⟩

/-- Basis of a rotation about the vertical (Y) axis, from the cosine `a` and
sine `b` of its angle. -/
def M3.rotY {K : Type} [LinearOrderedField K] (a b : K) : M3 K :=
  ⟨⟨a, 0, b⟩, ⟨0, 1, 0⟩, ⟨-b, 0, a⟩⟩

/-- The call `glm::normalize` on a `vec2`: `v * inversesqrt(dot(v, v))`.  The
result is `none` when `dot(v, v)` is `0`, where the code divides by zero. -/
def normalize2 {K : Type} [LinearOrderedField K] (g : Glm K) (v : K × K) : Option (K × K) :=
  let d := v.1 * v.1 + v.2 * v.2
  if d = 0 then none else some (v.1 * (1 / g.sqrt d), v.2 * (1 / g.sqrt d))

/-- The call `glm::normalize` on a `vec3`; `none` when it divides by zero. -/
def normalize3 {K : Type} [LinearOrderedField K] (g : Glm K) (v : V3 K) : Option (V3 K) :=
  let d := v.dot v
  if d = 0 then none
  else some ⟨v.x * (1 / g.sqrt d), v.y * (1 / g.sqrt d), v.z * (1 / g.sqrt d)⟩

/-- The angle (degrees) of line 611:
`-10*sqrt(abs(steering))*aVelocity + 90 + baseYaw/4`. -/
def followAngle {K : Type} [LinearOrderedField K] (g : Glm K)
    (steering aVelocity baseYaw : K) : K :=
  -10 * g.sqrt |steering| * aVelocity + 90 + baseYaw / 4

/-- The local `newPos` of line 611, for the chassis basis, the Y component
`angularVelocityY` of the chassis angular velocity, and the globals
`steering`, `baseYaw`, `cameraRadius`. -/
def followNewPos {K : Type} [LinearOrderedField K] (g : Glm K) (basis : M3 K)
    (angularVelocityY steering baseYaw cameraRadius : K) : V3 K :=
  let aVelocity := -angularVelocityY
  basis.mulVec
    ⟨g.cosDeg (followAngle g steering aVelocity baseYaw) * cameraRadius, 0,
     g.sinDeg (followAngle g steering aVelocity baseYaw) * cameraRadius⟩

/-- The global `cameraFollowPos` after lines 613-615. -/
def cameraFollowPos {K : Type} [LinearOrderedField K] (g : Glm K) (basis : M3 K)
    (origin : V3 K) (angularVelocityY steering baseYaw cameraRadius pitch : K) : V3 K :=
  let newPos := followNewPos g basis angularVelocityY steering baseYaw cameraRadius
  ⟨origin.x + newPos.x, origin.y - g.sinDeg pitch * cameraRadius + 15 / 10,
   origin.z + newPos.z⟩

/-- The `Yaw` written by `Camera::LookAt(x, y, z)`: `dir = normalize((x, z))`,
`Yaw = degrees(atan(dir.y, dir.x))`; `none` when the normalisation divides by
zero.  (`dir2` is computed from `(y, z)` and never used.) -/
def lookAtYaw {K : Type} [LinearOrderedField K] (g : Glm K) (x _y z : K) : Option K :=
  (normalize2 g (x, z)).map fun dir => g.atanDeg dir.2 dir.1

/-- The arguments `(x, y, z)` of the `camera.LookAt` call of line 620. -/
def lookAtArgs {K : Type} [LinearOrderedField K] (g : Glm K) (basis : M3 K)
    (angularVelocityY steering baseYaw cameraRadius : K) : K × K × K :=
  let newPos := followNewPos g basis angularVelocityY steering baseYaw cameraRadius
  (-newPos.x, newPos.y, -newPos.z)

/-- The follow-mode camera update of one frame (lines 605-621): `Position` is
set to `cameraFollowPos`, `Yaw` is set by `LookAt`, `Pitch` is not written.
The result is `none` when `LookAt` divides by zero. -/
def followUpdate {K : Type} [LinearOrderedField K] (g : Glm K) (basis : M3 K)
    (origin : V3 K) (angularVelocityY steering baseYaw cameraRadius : K)
    (cam : FollowCam K) : Option (FollowCam K) :=
  let pos := cameraFollowPos g basis origin angularVelocityY steering baseYaw cameraRadius
    cam.Pitch
  let args := lookAtArgs g basis angularVelocityY steering baseYaw cameraRadius
  (lookAtYaw g args.1 args.2.1 args.2.2).map fun yaw =>
    { Position := pos, Yaw := yaw, Pitch := cam.Pitch }

/-- The vector `Front` computed by `Camera::updateCameraVectors` from `Yaw` and
`Pitch`; `none` when the normalisation divides by zero. -/
def frontVector {K : Type} [LinearOrderedField K] (g : Glm K) (yaw pitch : K) :
    Option (V3 K) :=
  normalize3 g
    ⟨g.cosDeg yaw * g.cosDeg pitch, g.sinDeg pitch, g.sinDeg yaw * g.cosDeg pitch⟩

/-- The library functions over the reals: cosine and sine of an angle given in
degrees, the real square root, and the two-argument arctangent in degrees
(the argument of the complex number `x + y i`). -/
def IsRealGlm (g : Glm ℝ) : Prop :=
  g.cosDeg = (fun d => Real.cos (d * Real.pi / 180)) ∧
  g.sinDeg = (fun d => Real.sin (d * Real.pi / 180)) ∧
  g.sqrt = Real.sqrt ∧
  g.atanDeg = (fun y x => Complex.arg ⟨x, y⟩ * 180 / Real.pi)

/-! ## Scene construction order and the render switch (`main`, lines 369-533 and 680-689) -/

/-- The bodies added to the world by `createRigidBody`, by role. -/
inductive SceneBody where
  | tile (i j : Nat)
  | wall (n : Nat)
  | chassis
  | wheel (w : Wheel)
deriving DecidableEq

/-- Constant `tiles = grid_width * grid_height`. -/
def tiles : Nat := grid_width * grid_height

/-- Constant `walls = 4`. -/
def walls : Nat := 4

/-- The `createRigidBody` calls of scene construction, in program order: the
terrain loops (lines 387-402; a body is created for cell `(i, j)` when
`track[j][i]` is `0` or `1`), the four walls (lines 415-425), the chassis
(line 433) and the wheels `t1..t4` (lines 442, 465, 488, 510).  Each call adds
one object at the end of the world's collision-object array. -/
def sceneBodies : List SceneBody :=
  ((List.range grid_width).flatMap fun i =>
    (List.range grid_height).filterMap fun j =>
      match (track.getD j []).getD i 2 with
      | 0 => some (SceneBody.tile i j)
      | 1 => some (SceneBody.tile i j)
      | _ => none) ++
  [SceneBody.wall 0, SceneBody.wall 1, SceneBody.wall 2, SceneBody.wall 3] ++
  [SceneBody.chassis, SceneBody.wheel Wheel.t1, SceneBody.wheel Wheel.t2,
   SceneBody.wheel Wheel.t3, SceneBody.wheel Wheel.t4]

/-- The array index `i*(grid_height)+j` used for `plane`, `plane_pos` and
`plane_size`. -/
def planeIndex (i j : Nat) : Nat := i * grid_height + j

/-- The models drawn by the car loop. -/
inductive CarModel where
  | mModel
  | t1Model
  | t2Model
deriving DecidableEq

/-- The `switch (i)` of lines 681-686; `none` is the `default` branch, which
returns `EXIT_FAILURE` from `main`. -/
def renderSwitch (i : Nat) : Option CarModel :=
  if i = tiles + walls then some CarModel.mModel
  else if i = tiles + walls + 1 ∨ i = tiles + walls + 2 then some CarModel.t1Model
  else if i = tiles + walls + 3 ∨ i = tiles + walls + 4 then some CarModel.t2Model
  else none

/-- The car loop of the render pass (line 679): indices `tiles+walls` up to
`num_cobjs - 1`, each through the switch; `none` when the `default` branch is
taken. -/
def renderLoop (num_cobjs : Nat) : Option (List CarModel) :=
  ((List.range num_cobjs).filter fun i => decide (tiles + walls ≤ i)).mapM renderSwitch

/-- Componentwise negation of a vector. -/
def Vec3.neg (v : Vec3) : Vec3 := ⟨-v.x, -v.y, -v.z⟩

/-! ## Reference notions used by the statements -/

/-- Number of rising edges of a key: frames in which the key is pressed while
it was released in the previous frame (`prev` is the state before the first
frame). -/
def risingEdges (prev : Bool) : List Bool → Nat
  | [] => 0
  | k :: ks => (if k ∧ ¬ prev then 1 else 0) + risingEdges k ks

/-- Number of frames of a run in which `cameraFollow` differs from its value
before the frame. -/
def flipCount (st : InputState) : List Keys → Nat
  | [] => 0
  | k :: ks =>
    (if (processInput k st).cameraFollow = st.cameraFollow then 0 else 1) +
      flipCount (processInput k st) ks

/-- Number of frames of a run in which the chassis receives the impulse `i`. -/
def impulseFrames (i : Impulse) (st : InputState) (ks : List Keys) : Nat :=
  (runFrames st ks).countP (fun s => decide (i ∈ frameImpulses s))

/-- Per-frame record of a run: whether the chassis receives the impulse `i`. -/
def impulseTrace (i : Impulse) (st : InputState) (ks : List Keys) : List Bool :=
  (runFrames st ks).map (fun s => decide (i ∈ frameImpulses s))

/-- Steering values reachable from `0`: multiples of the step `1/20` between
`-1` and `1`. -/
def OnGrid (s : ℚ) : Prop := ∃ k : ℤ, s = k / 20 ∧ -20 ≤ k ∧ k ≤ 20

theorem decay_eq (s : ℚ) : decay s = steeringUpdate false false s := rfl

theorem decay_of_nonneg {s : ℚ} (h : 0 ≤ s) :
    decay s = if s < 1 / 10 then 0 else s - 1 / 20 := by
  rw [decay_eq]
  unfold steeringUpdate signTerm steering_speed
  rcases h.eq_or_lt with h0 | hpos
  · subst h0; norm_num
  · have hn : ¬ s < 0 := not_lt.mpr h
    simp only [Bool.false_eq_true, if_false, gt_iff_lt, hpos, hn, if_true]
    by_cases h1 : s < 1 / 10
    · rw [if_pos h1, if_pos]
      constructor <;> linarith
    · rw [if_neg h1, if_neg]
      · ring
      · intro hc
        apply h1
        linarith [hc.1]

theorem decay_neg (s : ℚ) : decay (-s) = -decay s := by
  rw [decay_eq, decay_eq]
  unfold steeringUpdate signTerm steering_speed
  simp only [Bool.false_eq_true, if_false, gt_iff_lt]
  rcases lt_trichotomy s 0 with h | h | h
  · have h1 : ¬ 0 < s := not_lt.mpr h.le
    have h2 : 0 < -s := by linarith
    have h3 : ¬ -s < 0 := by linarith
    simp only [h, h1, h2, h3, if_true, if_false]
    split_ifs with a b b
    · norm_num
    · exact absurd ⟨by linarith [a.2], by linarith [a.1]⟩ b
    · exact absurd ⟨by linarith [b.2], by linarith [b.1]⟩ a
    · ring
  · subst h; norm_num
  · have h1 : ¬ s < 0 := not_lt.mpr h.le
    have h2 : -s < 0 := by linarith
    have h3 : ¬ 0 < -s := by linarith
    simp only [h, h1, h2, h3, if_true, if_false]
    split_ifs with a b b
    · norm_num
    · exact absurd ⟨by linarith [a.2], by linarith [a.1]⟩ b
    · exact absurd ⟨by linarith [b.2], by linarith [b.1]⟩ a
    · ring

theorem decay_zero : decay 0 = 0 := by
  rw [decay_of_nonneg le_rfl]; norm_num

theorem decay_iterate_zero (n : ℕ) : decay^[n] 0 = 0 := by
  induction n with
  | zero => rfl
  | succ n ih => rw [Function.iterate_succ_apply, decay_zero, ih]

theorem decay_iterate_neg (n : ℕ) (s : ℚ) : decay^[n] (-s) = -decay^[n] s := by
  induction n generalizing s with
  | zero => rfl
  | succ n ih => rw [Function.iterate_succ_apply, Function.iterate_succ_apply, decay_neg, ih]

theorem decay_nonneg {s : ℚ} (h : 0 ≤ s) : 0 ≤ decay s := by
  rw [decay_of_nonneg h]
  split_ifs with h1
  · exact le_rfl
  · linarith [not_lt.mp h1]

theorem decay_iterate_nonneg (n : ℕ) {s : ℚ} (h : 0 ≤ s) : 0 ≤ decay^[n] s := by
  induction n generalizing s with
  | zero => exact h
  | succ n ih => rw [Function.iterate_succ_apply]; exact ih (decay_nonneg h)

theorem decay_iterate_nonpos (n : ℕ) {s : ℚ} (h : s ≤ 0) : decay^[n] s ≤ 0 := by
  have h1 : 0 ≤ decay^[n] (-s) := decay_iterate_nonneg n (by linarith)
  rw [decay_iterate_neg] at h1
  linarith

/-- From a value in `[0, n/20]` the decay reaches `0` within `n` frames. -/
theorem decay_reaches_zero (n : ℕ) {s : ℚ} (h0 : 0 ≤ s) (hn : s ≤ n / 20) :
    decay^[n] s = 0 := by
  induction n generalizing s with
  | zero =>
    have : s = 0 := le_antisymm (by simpa using hn) h0
    rw [this]; rfl
  | succ n ih =>
    rw [Function.iterate_succ_apply, decay_of_nonneg h0]
    split_ifs with h1
    · exact decay_iterate_zero n
    · apply ih
      · linarith [not_lt.mp h1]
      · push_cast at hn
        linarith

theorem decay_twenty {s : ℚ} (h1 : -1 ≤ s) (h2 : s ≤ 1) : decay^[20] s = 0 := by
  rcases le_total 0 s with h | h
  · exact decay_reaches_zero 20 h (by norm_num; exact h2)
  · have := decay_reaches_zero 20 (s := -s) (by linarith) (by norm_num; linarith)
    rw [decay_iterate_neg] at this
    linarith

/-- Claim C1: for every starting steering value `s` in `[-1, 1]`, repeated
application of the no-key branch of `processInput` gives exactly `0` after at
most 20 frames (hence at frame 20), gives `0` in every later frame, and no
value on the way has the sign opposite to `s`. -/
theorem C1_decay_reaches_zero_without_overshoot (s : ℚ) (h1 : -1 ≤ s) (h2 : s ≤ 1) :
    (∃ n, n ≤ 20 ∧ ∀ m, n ≤ m → decay^[m] s = 0) ∧
    (∀ k, (0 ≤ s → 0 ≤ decay^[k] s) ∧ (s ≤ 0 → decay^[k] s ≤ 0)) := by
  refine ⟨⟨20, le_rfl, ?_⟩, fun k => ⟨decay_iterate_nonneg k, decay_iterate_nonpos k⟩⟩
  intro m hm
  obtain ⟨d, rfl⟩ := Nat.exists_eq_add_of_le hm
  rw [Nat.add_comm, Function.iterate_add_apply, decay_twenty h1 h2, decay_iterate_zero]

/-- Witness for C1 at `s = 1`: frame 20 is the first frame with value `0`. -/
theorem C1_witness :
    ((∃ n, n ≤ 20 ∧ ∀ m, n ≤ m → decay^[m] 1 = 0) ∧
      (∀ k, ((0 : ℚ) ≤ 1 → 0 ≤ decay^[k] 1) ∧ ((1 : ℚ) ≤ 0 → decay^[k] 1 ≤ 0))) ∧
    decay^[19] 1 = 1 / 20 :=
  ⟨C1_decay_reaches_zero_without_overshoot 1 (by norm_num) (by norm_num), by
    simp only [Function.iterate_succ_apply, Function.iterate_zero, id_eq]
    norm_num [decay_of_nonneg]⟩

/-! ## Braking flag and joint limits -/

/-- Claim C2 as stated fails: with intent `-1`, `maxVelocity = 50` and speed
`5 ≤ 50/10` the flag is `1` (free), and at speed `10 > 50/10` it is `0`
(locked). -/
theorem C2_counterexample :
    ((0 : ℚ) ≤ 5 ∧ (0 : ℚ) < 50 ∧ (5 : ℚ) ≤ 50 / 10 ∧ braking (-1) 5 50 ≠ 0) ∧
    ((0 : ℚ) ≤ 10 ∧ (10 : ℚ) > 50 / 10 ∧ braking (-1) 10 50 ≠ 1) := by
  unfold braking
  norm_num

/-- Claim C2, amended: for every speed `v ≥ 0` and positive `maxVelocity`, with
throttle intent `-1` the braking flag is `0` (locked) whenever
`v > maxVelocity/10` and `1` (free) whenever `v ≤ maxVelocity/10`; the boundary
is on the free side. -/
theorem C2_braking_flag_reverse (v maxVelocity : ℚ) (_hv : 0 ≤ v) (_hm : 0 < maxVelocity) :
    (v > maxVelocity / 10 → braking (-1) v maxVelocity = 0) ∧
    (v ≤ maxVelocity / 10 → braking (-1) v maxVelocity = 1) := by
  unfold braking
  constructor
  · intro h
    rw [if_pos ⟨by norm_num, h⟩]
  · intro h
    rw [if_neg]
    exact fun hc => absurd hc.2 (not_lt.mpr h)

/-- Witness for the amended C2 at `maxVelocity = 50`: speed `10` and the
boundary speed `5`. -/
theorem C2_witness : braking (-1) 10 50 = 0 ∧ braking (-1) 5 50 = 1 :=
  ⟨(C2_braking_flag_reverse 10 50 (by norm_num) (by norm_num)).1 (by norm_num),
   (C2_braking_flag_reverse 5 50 (by norm_num) (by norm_num)).2 (by norm_num)⟩

/-- Claim C3: after the limit writes of a frame, with the handbrake engaged
both rear joints have angular limits `(0,0,0)`; with the handbrake released
both rear joints have lower `(b,0,0)` and upper `(-b,0,0)`, whose first
component is the one written to the front joints in the same frame. -/
theorem C3_rear_limits (b : Int) (steering : ℚ) (v : Vehicle) :
    ((updateLimits b steering true v).c3.angularLower = ⟨0, 0, 0⟩ ∧
     (updateLimits b steering true v).c3.angularUpper = ⟨0, 0, 0⟩ ∧
     (updateLimits b steering true v).c4.angularLower = ⟨0, 0, 0⟩ ∧
     (updateLimits b steering true v).c4.angularUpper = ⟨0, 0, 0⟩) ∧
    ((updateLimits b steering false v).c3.angularLower = ⟨b, 0, 0⟩ ∧
     (updateLimits b steering false v).c3.angularUpper = ⟨-b, 0, 0⟩ ∧
     (updateLimits b steering false v).c4.angularLower = ⟨b, 0, 0⟩ ∧
     (updateLimits b steering false v).c4.angularUpper = ⟨-b, 0, 0⟩) ∧
    ((updateLimits b steering false v).c3.angularLower.x
        = (updateLimits b steering false v).c1.angularLower.x ∧
     (updateLimits b steering false v).c3.angularUpper.x
        = (updateLimits b steering false v).c1.angularUpper.x ∧
     (updateLimits b steering false v).c4.angularLower.x
        = (updateLimits b steering false v).c2.angularLower.x ∧
     (updateLimits b steering false v).c4.angularUpper.x
        = (updateLimits b steering false v).c2.angularUpper.x) := by
  simp [updateLimits, Joint.setAngular]

/-! ## Edge-triggered inputs -/

theorem oneShot_eq (key latch : Bool) : oneShot key latch = (key && !latch, key) := by
  cases key <;> cases latch <;> rfl

theorem cameraSwitch_eq (tab cameraFollow switched : Bool) :
    cameraSwitch tab cameraFollow switched =
      (if tab && !switched then !cameraFollow else cameraFollow, tab) := by
  cases tab <;> cases switched <;> cases cameraFollow <;> rfl

theorem processInput_getUp (k : Keys) (st : InputState) :
    (processInput k st).getUp = (k.r && !st.gotUp) := by
  simp [processInput, oneShot_eq]

theorem processInput_gotUp (k : Keys) (st : InputState) :
    (processInput k st).gotUp = k.r := by
  simp [processInput, oneShot_eq]

theorem processInput_jump (k : Keys) (st : InputState) :
    (processInput k st).jump = (k.t && !st.jumped) := by
  simp [processInput, oneShot_eq]

theorem processInput_jumped (k : Keys) (st : InputState) :
    (processInput k st).jumped = k.t := by
  simp [processInput, oneShot_eq]

theorem processInput_cameraFollow (k : Keys) (st : InputState) :
    (processInput k st).cameraFollow =
      (if k.tab && !st.switched then !st.cameraFollow else st.cameraFollow) := by
  simp [processInput, cameraSwitch_eq]

theorem processInput_switched (k : Keys) (st : InputState) :
    (processInput k st).switched = k.tab := by
  simp [processInput, cameraSwitch_eq]

theorem recovery_mem_frameImpulses (st : InputState) :
    Impulse.recovery ∈ frameImpulses st ↔ st.getUp = true := by
  unfold frameImpulses
  cases st.getUp <;> cases st.jump <;> simp

theorem jumpUp_mem_frameImpulses (st : InputState) :
    Impulse.jumpUp ∈ frameImpulses st ↔ st.jump = true := by
  unfold frameImpulses
  cases st.getUp <;> cases st.jump <;> simp

theorem impulseTrace_cons (i : Impulse) (st : InputState) (k : Keys) (ks : List Keys) :
    impulseTrace i st (k :: ks) =
      decide (i ∈ frameImpulses (processInput k st)) :: impulseTrace i (processInput k st) ks :=
  rfl

theorem impulseFrames_cons (i : Impulse) (st : InputState) (k : Keys) (ks : List Keys) :
    impulseFrames i st (k :: ks) =
      impulseFrames i (processInput k st) ks +
        (if i ∈ frameImpulses (processInput k st) then 1 else 0) := by
  unfold impulseFrames
  rw [runFrames, List.countP_cons]
  simp

theorem impulseFrames_eq_count (i : Impulse) (st : InputState) (ks : List Keys) :
    impulseFrames i st ks = (impulseTrace i st ks).count true := by
  induction ks generalizing st with
  | nil => rfl
  | cons k ks ih =>
    rw [impulseFrames_cons, impulseTrace_cons, List.count_cons, ih]
    by_cases h : i ∈ frameImpulses (processInput k st) <;> simp [h]

theorem impulseFrames_recovery (st : InputState) (ks : List Keys) :
    impulseFrames Impulse.recovery st ks = risingEdges st.gotUp (ks.map (·.r)) := by
  induction ks generalizing st with
  | nil => rfl
  | cons k ks ih =>
    rw [impulseFrames_cons, ih, List.map_cons, risingEdges, processInput_gotUp, Nat.add_comm]
    simp only [recovery_mem_frameImpulses, processInput_getUp]
    cases k.r <;> cases st.gotUp <;> simp

theorem impulseFrames_jumpUp (st : InputState) (ks : List Keys) :
    impulseFrames Impulse.jumpUp st ks = risingEdges st.jumped (ks.map (·.t)) := by
  induction ks generalizing st with
  | nil => rfl
  | cons k ks ih =>
    rw [impulseFrames_cons, ih, List.map_cons, risingEdges, processInput_jumped, Nat.add_comm]
    simp only [jumpUp_mem_frameImpulses, processInput_jump]
    cases k.t <;> cases st.jumped <;> simp

theorem impulseTrace_recovery_held (st : InputState) (ks : List Keys)
    (hl : st.gotUp = true) (hk : ∀ k ∈ ks, k.r = true) :
    impulseTrace Impulse.recovery st ks = List.replicate ks.length false := by
  induction ks generalizing st with
  | nil => rfl
  | cons k ks ih =>
    have hr : k.r = true := hk k (List.mem_cons_self _ _)
    rw [impulseTrace_cons, ih (processInput k st) (by rw [processInput_gotUp, hr])
      (fun q hq => hk q (List.mem_cons_of_mem _ hq))]
    simp [recovery_mem_frameImpulses, processInput_getUp, hr, hl, List.replicate_succ]

theorem impulseTrace_jumpUp_held (st : InputState) (ks : List Keys)
    (hl : st.jumped = true) (hk : ∀ k ∈ ks, k.t = true) :
    impulseTrace Impulse.jumpUp st ks = List.replicate ks.length false := by
  induction ks generalizing st with
  | nil => rfl
  | cons k ks ih =>
    have hr : k.t = true := hk k (List.mem_cons_self _ _)
    rw [impulseTrace_cons, ih (processInput k st) (by rw [processInput_jumped, hr])
      (fun q hq => hk q (List.mem_cons_of_mem _ hq))]
    simp [jumpUp_mem_frameImpulses, processInput_jump, hr, hl, List.replicate_succ]

theorem count_true_cons_replicate_false (n : ℕ) :
    (true :: List.replicate n false).count true = 1 := by
  rw [List.count_cons_self, List.count_replicate]
  simp

/-- Claim C4: from `gotUp = false` (resp. `jumped = false`), over any finite
run of frames the number of frames in which the recovery torque impulse (resp.
the jump impulse) is applied equals the number of rising edges of the R (resp.
T) key; a non-empty run with the key held in every frame applies the impulse in
the first frame and in no other. -/
theorem C4_impulses_once_per_press (st : InputState) (ks : List Keys)
    (hR : st.gotUp = false) (hT : st.jumped = false) :
    impulseFrames Impulse.recovery st ks = risingEdges false (ks.map (·.r)) ∧
    impulseFrames Impulse.jumpUp st ks = risingEdges false (ks.map (·.t)) ∧
    ((∀ k ∈ ks, k.r = true) → ks ≠ [] →
      impulseTrace Impulse.recovery st ks = true :: List.replicate (ks.length - 1) false ∧
      impulseFrames Impulse.recovery st ks = 1) ∧
    ((∀ k ∈ ks, k.t = true) → ks ≠ [] →
      impulseTrace Impulse.jumpUp st ks = true :: List.replicate (ks.length - 1) false ∧
      impulseFrames Impulse.jumpUp st ks = 1) := by
  refine ⟨?_, ?_, ?_, ?_⟩
  · rw [impulseFrames_recovery, hR]
  · rw [impulseFrames_jumpUp, hT]
  · intro hk hne
    have ht : impulseTrace Impulse.recovery st ks
        = true :: List.replicate (ks.length - 1) false := by
      cases ks with
      | nil => exact absurd rfl hne
      | cons k ks =>
        have hr : k.r = true := hk k (List.mem_cons_self _ _)
        rw [impulseTrace_cons, impulseTrace_recovery_held (processInput k st) ks
          (by rw [processInput_gotUp, hr]) (fun q hq => hk q (List.mem_cons_of_mem _ hq))]
        simp [recovery_mem_frameImpulses, processInput_getUp, hr, hR]
    exact ⟨ht, by rw [impulseFrames_eq_count, ht, count_true_cons_replicate_false]⟩
  · intro hk hne
    have ht : impulseTrace Impulse.jumpUp st ks
        = true :: List.replicate (ks.length - 1) false := by
      cases ks with
      | nil => exact absurd rfl hne
      | cons k ks =>
        have hr : k.t = true := hk k (List.mem_cons_self _ _)
        rw [impulseTrace_cons, impulseTrace_jumpUp_held (processInput k st) ks
          (by rw [processInput_jumped, hr]) (fun q hq => hk q (List.mem_cons_of_mem _ hq))]
        simp [jumpUp_mem_frameImpulses, processInput_jump, hr, hT]
    exact ⟨ht, by rw [impulseFrames_eq_count, ht, count_true_cons_replicate_false]⟩

/-- Witness for C4: R and T held for three frames from the initial state. -/
theorem C4_witness :
    impulseFrames Impulse.recovery InputState.init
      (List.replicate 3 ⟨false, false, false, false, false, false, true, true⟩) = 1 ∧
    impulseTrace Impulse.jumpUp InputState.init
      (List.replicate 3 ⟨false, false, false, false, false, false, true, true⟩)
        = [true, false, false] :=
  ⟨((C4_impulses_once_per_press InputState.init
      (List.replicate 3 ⟨false, false, false, false, false, false, true, true⟩)
      rfl rfl).2.2.1 (by decide) (by decide)).2,
   ((C4_impulses_once_per_press InputState.init
      (List.replicate 3 ⟨false, false, false, false, false, false, true, true⟩)
      rfl rfl).2.2.2 (by decide) (by decide)).1⟩

/-! ## Camera-mode toggle -/

theorem finalState_cons (st : InputState) (k : Keys) (ks : List Keys) :
    finalState st (k :: ks) = finalState (processInput k st) ks := rfl

theorem flipCount_eq_risingEdges (st : InputState) (ks : List Keys) :
    flipCount st ks = risingEdges st.switched (ks.map (·.tab)) := by
  induction ks generalizing st with
  | nil => rfl
  | cons k ks ih =>
    rw [flipCount, ih, List.map_cons, risingEdges, processInput_switched,
      processInput_cameraFollow]
    cases k.tab <;> cases st.switched <;> cases st.cameraFollow <;> simp

theorem finalState_cameraFollow (st : InputState) (ks : List Keys) :
    ((finalState st ks).cameraFollow = st.cameraFollow ↔
      Even (risingEdges st.switched (ks.map (·.tab)))) := by
  induction ks generalizing st with
  | nil => simp [finalState, risingEdges]
  | cons k ks ih =>
    have h := ih (processInput k st)
    rw [processInput_switched, processInput_cameraFollow] at h
    rw [finalState_cons, List.map_cons, risingEdges]
    by_cases hk : (k.tab = true ∧ ¬ st.switched = true)
    · have hb : (k.tab && !st.switched) = true := by
        rcases hk with ⟨h1, h2⟩
        rw [h1]; cases hs : st.switched
        · rfl
        · exact absurd hs h2
      rw [if_pos hk, Nat.add_comm, Nat.even_add_one, ← h, if_pos hb]
      cases (finalState (processInput k st) ks).cameraFollow <;>
        cases st.cameraFollow <;> simp
    · have hb : ¬ (k.tab && !st.switched) = true := by
        intro hc
        apply hk
        cases ht : k.tab <;> cases hs : st.switched <;> simp [ht, hs] at hc ⊢
      rw [if_neg hk, Nat.zero_add, ← h, if_neg hb]

theorem finalState_held (st : InputState) (ks : List Keys)
    (hs : st.switched = true) (hk : ∀ k ∈ ks, k.tab = true) :
    (finalState st ks).cameraFollow = st.cameraFollow := by
  induction ks generalizing st with
  | nil => rfl
  | cons k ks ih =>
    have ht : k.tab = true := hk k (List.mem_cons_self _ _)
    rw [finalState_cons, ih (processInput k st) (by rw [processInput_switched, ht])
      (fun q hq => hk q (List.mem_cons_of_mem _ hq)), processInput_cameraFollow, hs]
    simp

/-- Claim C5: from `switched = false`, over any finite run of frames the
number of frames in which `cameraFollow` flips equals the number of rising
edges of TAB, and the final mode equals the initial mode exactly when that
number is even; one press followed by a release, and a non-empty run with the
key held in every frame, each leave the mode flipped exactly once. -/
theorem C5_camera_toggle_once_per_press (st : InputState) (ks : List Keys)
    (hs : st.switched = false) :
    flipCount st ks = risingEdges false (ks.map (·.tab)) ∧
    ((finalState st ks).cameraFollow = st.cameraFollow ↔
      Even (risingEdges false (ks.map (·.tab)))) ∧
    (∀ press release : Keys, press.tab = true → release.tab = false →
      flipCount st [press, release] = 1 ∧
      (finalState st [press, release]).cameraFollow = !st.cameraFollow) ∧
    ((∀ k ∈ ks, k.tab = true) → ks ≠ [] →
      flipCount st ks = 1 ∧ (finalState st ks).cameraFollow = !st.cameraFollow) := by
  refine ⟨?_, ?_, ?_, ?_⟩
  · rw [flipCount_eq_risingEdges, hs]
  · rw [finalState_cameraFollow, hs]
  · intro press release hp hr
    constructor
    · rw [flipCount_eq_risingEdges, hs]
      simp [risingEdges, hp, hr]
    · simp [finalState, processInput_cameraFollow, processInput_switched, hp, hr, hs]
  · intro hk hne
    cases ks with
    | nil => exact absurd rfl hne
    | cons k ks =>
      have ht : k.tab = true := hk k (List.mem_cons_self _ _)
      have hf : (finalState st (k :: ks)).cameraFollow = !st.cameraFollow := by
        rw [finalState_cons, finalState_held (processInput k st) ks
          (by rw [processInput_switched, ht]) (fun q hq => hk q (List.mem_cons_of_mem _ hq)),
          processInput_cameraFollow, hs, ht]
        simp
      refine ⟨?_, hf⟩
      rw [flipCount, processInput_cameraFollow, hs, ht]
      have h0 : flipCount (processInput k st) ks = 0 := by
        have hq : ∀ (s : InputState) (l : List Keys), s.switched = true →
            (∀ q ∈ l, q.tab = true) → flipCount s l = 0 := by
          intro s l
          induction l generalizing s with
          | nil => intros; rfl
          | cons a l ih =>
            intro h1 h2
            have ha : a.tab = true := h2 a (List.mem_cons_self _ _)
            rw [flipCount, ih (processInput a s) (by rw [processInput_switched, ha])
              (fun q hq => h2 q (List.mem_cons_of_mem _ hq)), processInput_cameraFollow, h1]
            simp
        exact hq _ _ (by rw [processInput_switched, ht])
          (fun q hq => hk q (List.mem_cons_of_mem _ hq))
      rw [h0]
      cases st.cameraFollow <;> simp

/-- Witness for C5: TAB held for three frames from the initial state. -/
theorem C5_witness :
    flipCount InputState.init
      (List.replicate 3 ⟨true, false, false, false, false, false, false, false⟩) = 1 ∧
    (finalState InputState.init
      (List.replicate 3 ⟨true, false, false, false, false, false, false, false⟩)).cameraFollow
        = !InputState.init.cameraFollow :=
  (C5_camera_toggle_once_per_press InputState.init
    (List.replicate 3 ⟨true, false, false, false, false, false, false, false⟩) rfl).2.2.2
    (by decide) (by decide)

/-! ## Settings callbacks -/

/-- Claim C6 (defect in `stability_callback`): at assist factor `1` the
callback leaves the chassis with damping `(0.01, 0.2)`, the wheel constants,
not the chassis constants `(cLinDamp, cAngDamp) = (0.02, 0.4)` that vehicle
creation uses; the four wheels do get `(tLinDamp, tAngDamp)`. -/
theorem C6_stability_callback_chassis_uses_wheel_constants (v : Vehicle) :
    ((stability_callback 1 v).car.linDamping = 1 / 100 ∧
      (stability_callback 1 v).car.angDamping = 2 / 10) ∧
    ((stability_callback 1 v).car.linDamping ≠ cLinDamp * 1 ∧
      (stability_callback 1 v).car.angDamping ≠ cAngDamp * 1) ∧
    ((createCarDamping v.car 1).linDamping = 2 / 100 ∧
      (createCarDamping v.car 1).angDamping = 4 / 10) ∧
    (stability_callback 1 v).car ≠ createCarDamping v.car 1 ∧
    ((stability_callback 1 v).t1.linDamping = tLinDamp * 1 ∧
      (stability_callback 1 v).t1.angDamping = tAngDamp * 1 ∧
      (stability_callback 1 v).t2.linDamping = tLinDamp * 1 ∧
      (stability_callback 1 v).t2.angDamping = tAngDamp * 1 ∧
      (stability_callback 1 v).t3.linDamping = tLinDamp * 1 ∧
      (stability_callback 1 v).t3.angDamping = tAngDamp * 1 ∧
      (stability_callback 1 v).t4.linDamping = tLinDamp * 1 ∧
      (stability_callback 1 v).t4.angDamping = tAngDamp * 1) := by
  have hne : (stability_callback 1 v).car ≠ createCarDamping v.car 1 := by
    intro h
    have := congrArg Body.linDamping h
    norm_num [stability_callback, createCarDamping, Body.setDamping, tLinDamp, cLinDamp] at this
  refine ⟨?_, ?_, ?_, hne, ?_⟩ <;>
    norm_num [stability_callback, createCarDamping, Body.setDamping, tLinDamp, tAngDamp,
      cLinDamp, cAngDamp]

/-- Claim C7: after `stability_callback` with assist factor `0`, the linear
and angular damping written to the chassis and to each of the four wheels are
all `0`, whatever the previous state was. -/
theorem C7_stability_zero_assist (v : Vehicle) :
    ((stability_callback 0 v).car.linDamping = 0 ∧ (stability_callback 0 v).car.angDamping = 0) ∧
    ((stability_callback 0 v).t1.linDamping = 0 ∧ (stability_callback 0 v).t1.angDamping = 0) ∧
    ((stability_callback 0 v).t2.linDamping = 0 ∧ (stability_callback 0 v).t2.angDamping = 0) ∧
    ((stability_callback 0 v).t3.linDamping = 0 ∧ (stability_callback 0 v).t3.angDamping = 0) ∧
    ((stability_callback 0 v).t4.linDamping = 0 ∧ (stability_callback 0 v).t4.angDamping = 0) := by
  simp [stability_callback, Body.setDamping]

/-- Claim C8: for every mass `m`, `mass_callback` stores `m` as `car_mass` and
sets the chassis mass properties to `(m, I m)`, where `I` is the local-inertia
function of the chassis collision shape, evaluated at the new mass; the four
wheel bodies are unchanged. -/
theorem C8_mass_callback (calculateLocalInertia : ℚ → Vec3) (m : ℚ) (v : Vehicle) :
    (mass_callback calculateLocalInertia m v).car_mass = m ∧
    (mass_callback calculateLocalInertia m v).car.mass = m ∧
    (mass_callback calculateLocalInertia m v).car.inertia = calculateLocalInertia m ∧
    (mass_callback calculateLocalInertia m v).t1 = v.t1 ∧
    (mass_callback calculateLocalInertia m v).t2 = v.t2 ∧
    (mass_callback calculateLocalInertia m v).t3 = v.t3 ∧
    (mass_callback calculateLocalInertia m v).t4 = v.t4 :=
  ⟨rfl, rfl, rfl, rfl, rfl, rfl, rfl⟩

/-! ## Drive torque -/

theorem abs_torque_fast (maxAcceleration : ℚ) (acceleration : Int) (steering v : ℚ)
    (hs : |steering| ≤ 1) (hv : v > 10) :
    |torque maxAcceleration acceleration steering v| =
      |maxAcceleration| * |(acceleration : ℚ)| * (1 - |steering| / 2) := by
  unfold torque
  rw [if_pos hv, mul_one, abs_mul, abs_mul, abs_neg,
    abs_of_nonneg (by linarith : (0 : ℚ) ≤ 1 - |steering| / 2)]

/-- Claim C9: for `maxTorque ≥ 0`, throttle intent in `{-1, 0, 1}`, speed
`> 10` and steering values `s1`, `s2` in `[-1, 1]` with `|s1| ≤ |s2|`, the
magnitude of the drive torque computed for `s1` is at least the magnitude
computed for `s2`; in particular the magnitude at steering `0` is at least the
magnitude at steering `1`. -/
theorem C9_torque_monotone_in_steering (maxTorque : ℚ) (intent : Int) (v s1 s2 : ℚ)
    (_hM : 0 ≤ maxTorque) (_hi : intent = -1 ∨ intent = 0 ∨ intent = 1) (hv : v > 10)
    (h1 : -1 ≤ s1 ∧ s1 ≤ 1) (h2 : -1 ≤ s2 ∧ s2 ≤ 1) (h12 : |s1| ≤ |s2|) :
    |torque maxTorque intent s2 v| ≤ |torque maxTorque intent s1 v| ∧
    |torque maxTorque intent 1 v| ≤ |torque maxTorque intent 0 v| := by
  have a1 : |s1| ≤ 1 := abs_le.mpr h1
  have a2 : |s2| ≤ 1 := abs_le.mpr h2
  have hc : 0 ≤ |maxTorque| * |(intent : ℚ)| := mul_nonneg (abs_nonneg _) (abs_nonneg _)
  constructor
  · rw [abs_torque_fast _ _ _ _ a2 hv, abs_torque_fast _ _ _ _ a1 hv]
    exact mul_le_mul_of_nonneg_left (by linarith) hc
  · rw [abs_torque_fast _ _ _ _ (by norm_num) hv, abs_torque_fast _ _ _ _ (by norm_num) hv]
    exact mul_le_mul_of_nonneg_left (by norm_num) hc

/-- Witness for C9: `maxTorque = 500`, intent `+1`, speed `20`, steering `1/2`
against `1`. -/
theorem C9_witness :
    |torque 500 1 1 20| ≤ |torque 500 1 (1 / 2) 20| ∧
    |torque 500 1 1 20| ≤ |torque 500 1 0 20| :=
  C9_torque_monotone_in_steering 500 1 20 (1 / 2) 1 (by norm_num) (by norm_num) (by norm_num)
    (by norm_num) (by norm_num) (by norm_num [abs_of_nonneg])

/-! ## Steering range -/

theorem OnGrid.bounds {s : ℚ} (h : OnGrid s) : -1 ≤ s ∧ s ≤ 1 := by
  obtain ⟨k, rfl, h1, h2⟩ := h
  have h1q : (-20 : ℚ) ≤ k := by exact_mod_cast h1
  have h2q : (k : ℚ) ≤ 20 := by exact_mod_cast h2
  constructor <;> linarith

theorem onGrid_zero : OnGrid 0 := ⟨0, by norm_num, by norm_num, by norm_num⟩

theorem steeringUpdate_onGrid (left right : Bool) {s : ℚ} (h : OnGrid s) :
    OnGrid (steeringUpdate left right s) := by
  obtain ⟨k, rfl, h1, h2⟩ := h
  have down : -20 < k → OnGrid ((k : ℚ) / 20 - 5 / 100) := fun hk =>
    ⟨k - 1, by push_cast; ring, by omega, by omega⟩
  have up : k < 20 → OnGrid ((k : ℚ) / 20 + 5 / 100) := fun hk =>
    ⟨k + 1, by push_cast; ring, by omega, by omega⟩
  have same : OnGrid ((k : ℚ) / 20) := ⟨k, rfl, h1, h2⟩
  unfold steeringUpdate steering_limit steering_speed signTerm
  cases left
  · cases right
    · simp only [Bool.false_eq_true, if_false]
      rcases lt_trichotomy k 0 with hk | hk | hk
      · have hq : (k : ℚ) / 20 < 0 := by
          have : (k : ℚ) < 0 := by exact_mod_cast hk
          linarith
        rw [if_neg (by linarith : ¬ (k : ℚ) / 20 > 0), if_pos hq]
        split_ifs
        · exact onGrid_zero
        · have := up (by omega)
          convert this using 1
          ring
      · subst hk
        norm_num
        exact onGrid_zero
      · have hq : (k : ℚ) / 20 > 0 := by
          have : (0 : ℚ) < k := by exact_mod_cast hk
          show (0 : ℚ) < k / 20
          linarith
        rw [if_pos hq, if_neg (by linarith : ¬ (k : ℚ) / 20 < 0)]
        split_ifs
        · exact onGrid_zero
        · have := down (by omega)
          convert this using 1
          ring
    · simp only [Bool.false_eq_true, if_false, if_true]
      split_ifs with hc
      · apply up
        have : (k : ℚ) < 20 := by linarith
        exact_mod_cast this
      · exact same
  · simp only [if_true]
    split_ifs with hc
    · apply down
      have : (-20 : ℚ) < k := by linarith
      exact_mod_cast this
    · exact same

theorem processInput_steering (k : Keys) (st : InputState) :
    (processInput k st).steering = steeringUpdate k.left k.right st.steering := rfl

theorem finalState_onGrid (st : InputState) (ks : List Keys) (h : OnGrid st.steering) :
    OnGrid (finalState st ks).steering := by
  induction ks generalizing st with
  | nil => exact h
  | cons k ks ih =>
    rw [finalState_cons]
    apply ih
    rw [processInput_steering]
    exact steeringUpdate_onGrid _ _ h

/-- Claim C10: starting from `steering = 0`, after any finite sequence of
frames of `processInput` with arbitrary key states the steering value lies in
`[-1, 1]` (exact arithmetic, step `1/20`). -/
theorem C10_steering_in_range (st : InputState) (ks : List Keys) (h0 : st.steering = 0) :
    -1 ≤ (finalState st ks).steering ∧ (finalState st ks).steering ≤ 1 :=
  (finalState_onGrid st ks (by rw [h0]; exact onGrid_zero)).bounds

/-- Witness for C10: the left key held for 25 frames from the initial state. -/
theorem C10_witness :
    -1 ≤ (finalState InputState.init
      (List.replicate 25 ⟨false, true, false, false, false, false, false, false⟩)).steering ∧
    (finalState InputState.init
      (List.replicate 25 ⟨false, true, false, false, false, false, false, false⟩)).steering
        ≤ 1 :=
  C10_steering_in_range InputState.init
    (List.replicate 25 ⟨false, true, false, false, false, false, false, false⟩) rfl

/-! ## Collision filtering -/

/-- Claim C11: the chassis is created with group and mask `(2, -7)`, each of
the four wheels with `(4, -7)`, each of the 40 terrain tiles and 4 walls with
`(1, -1)`; under the filter rule no pair among the chassis and the four wheels
is tested for collision (chassis-wheel, wheel-chassis, wheel-wheel), and each
of those five bodies is tested against each of the 44 terrain bodies. -/
theorem C11_car_parts_filtered :
    carFilters = [⟨2, -7⟩, ⟨4, -7⟩, ⟨4, -7⟩, ⟨4, -7⟩, ⟨4, -7⟩] ∧
    carFilters = [chassisFilter, tyreFilter, tyreFilter, tyreFilter, tyreFilter] ∧
    carFilters.length = 5 ∧
    tileFilters = List.replicate 40 ⟨1, -1⟩ ∧
    wallFilters = List.replicate 4 ⟨1, -1⟩ ∧
    (needsCollision chassisFilter tyreFilter = false ∧
      needsCollision tyreFilter chassisFilter = false ∧
      needsCollision tyreFilter tyreFilter = false ∧
      needsCollision chassisFilter chassisFilter = false) ∧
    (needsCollision chassisFilter terrainFilter = true ∧
      needsCollision terrainFilter chassisFilter = true ∧
      needsCollision tyreFilter terrainFilter = true ∧
      needsCollision terrainFilter tyreFilter = true) ∧
    (carFilters.all fun a => carFilters.all fun b => !needsCollision a b) = true ∧
    (carFilters.all fun a => (tileFilters ++ wallFilters).all fun b =>
      needsCollision a b && needsCollision b a) = true ∧
    tileFilters.length = 40 ∧ wallFilters.length = 4 ∧
    chassisFilter = ⟨2, -7⟩ ∧ tyreFilter = ⟨4, -7⟩ ∧ terrainFilter = ⟨1, -1⟩ := by
  decide

/-! ## World step -/

/-- Claim C12: for every frame duration `deltaTime ≥ 0` the time step passed to
the world step is `min deltaTime (1/50)`: `deltaTime` itself below `1/50`,
exactly `1/50` otherwise, never more than `1/50`; the sub-step count is `10`. -/
theorem C12_timestep_clamped (deltaTime : ℚ) (_h : 0 ≤ deltaTime) :
    (stepSimulationArgs deltaTime).1 = min deltaTime (1 / 50) ∧
    (deltaTime < 1 / 50 → (stepSimulationArgs deltaTime).1 = deltaTime) ∧
    (¬ deltaTime < 1 / 50 → (stepSimulationArgs deltaTime).1 = 1 / 50) ∧
    (stepSimulationArgs deltaTime).1 ≤ 1 / 50 ∧
    (stepSimulationArgs deltaTime).2 = 10 := by
  have h2 : (stepSimulationArgs deltaTime).2 = 10 := rfl
  have h1 : (stepSimulationArgs deltaTime).1 =
      if deltaTime < 1 / 50 then deltaTime else 1 / 50 := rfl
  by_cases h : deltaTime < 1 / 50
  · rw [if_pos h] at h1
    rw [h1]
    exact ⟨(min_eq_left h.le).symm, fun _ => rfl, fun hn => absurd h hn, h.le, h2⟩
  · rw [if_neg h] at h1
    rw [h1]
    exact ⟨(min_eq_right (not_lt.mp h)).symm, fun hp => absurd hp h, fun _ => rfl, le_rfl, h2⟩

/-- Witness for C12: a frame of `1/100` s passes through, a frame of `1/10` s
is cut to `1/50` s. -/
theorem C12_witness :
    (stepSimulationArgs (1 / 100)).1 = 1 / 100 ∧ (stepSimulationArgs (1 / 10)).1 = 1 / 50 :=
  ⟨(C12_timestep_clamped (1 / 100) (by norm_num)).2.1 (by norm_num),
   (C12_timestep_clamped (1 / 10) (by norm_num)).2.2.1 (by norm_num)⟩

/-! ## Presets -/

theorem setMassSlider_panel (I : ℚ → Vec3) (x : ℚ) (a : App) :
    (setMassSlider I x a).panel = { a.panel with mass := sliderValue 500 3000 x } := by
  unfold setMassSlider
  dsimp only
  split_ifs with h
  · rw [h]
  · rfl

theorem setStiffnessSlider_panel (x : ℚ) (a : App) :
    (setStiffnessSlider x a).panel =
      { a.panel with stiffness := sliderValue 50000 150000 x } := by
  unfold setStiffnessSlider
  dsimp only
  split_ifs with h
  · rw [h]
  · rfl

theorem setDampingSlider_panel (x : ℚ) (a : App) :
    (setDampingSlider x a).panel = { a.panel with damping := sliderValue 50 500 x } := by
  unfold setDampingSlider
  dsimp only
  split_ifs with h
  · rw [h]
  · rfl

theorem setFrictionSlider_panel (x : ℚ) (a : App) :
    (setFrictionSlider x a).panel = { a.panel with friction := sliderValue 0 10 x } := by
  unfold setFrictionSlider
  dsimp only
  split_ifs with h
  · rw [h]
  · rfl

theorem setSteerSlider_panel (x : ℚ) (a : App) :
    (setSteerSlider x a).panel = { a.panel with steer := sliderValue 0 1 x } := by
  unfold setSteerSlider
  dsimp only
  split_ifs with h
  · rw [h]
  · rfl

theorem setAccelerateSlider_panel (x : ℚ) (a : App) :
    (setAccelerateSlider x a).panel =
      { a.panel with accelerate := sliderValue 0 1000 x } := by
  unfold setAccelerateSlider
  dsimp only
  split_ifs with h
  · rw [h]
  · rfl

theorem setMassSlider_inSync (I : ℚ → Vec3) (x : ℚ) {a : App} (h : InSync a) :
    InSync (setMassSlider I x a) := by
  unfold setMassSlider
  dsimp only
  split_ifs with hc
  · exact h
  · obtain ⟨_, h2, h3, h4, h5, h6⟩ := h
    exact ⟨rfl, h2, h3, h4, h5, h6⟩

theorem setStiffnessSlider_inSync (x : ℚ) {a : App} (h : InSync a) :
    InSync (setStiffnessSlider x a) := by
  unfold setStiffnessSlider
  dsimp only
  split_ifs with hc
  · exact h
  · obtain ⟨h1, _, h3, h4, h5, h6⟩ := h
    exact ⟨h1, rfl, h3, h4, h5, h6⟩

theorem setDampingSlider_inSync (x : ℚ) {a : App} (h : InSync a) :
    InSync (setDampingSlider x a) := by
  unfold setDampingSlider
  dsimp only
  split_ifs with hc
  · exact h
  · obtain ⟨h1, h2, _, h4, h5, h6⟩ := h
    exact ⟨h1, h2, rfl, h4, h5, h6⟩

theorem setFrictionSlider_inSync (x : ℚ) {a : App} (h : InSync a) :
    InSync (setFrictionSlider x a) := by
  unfold setFrictionSlider
  dsimp only
  split_ifs with hc
  · exact h
  · obtain ⟨h1, h2, h3, _, h5, h6⟩ := h
    exact ⟨h1, h2, h3, rfl, h5, h6⟩

theorem setSteerSlider_inSync (x : ℚ) {a : App} (h : InSync a) :
    InSync (setSteerSlider x a) := by
  unfold setSteerSlider
  dsimp only
  split_ifs with hc
  · exact h
  · obtain ⟨h1, h2, h3, h4, _, h6⟩ := h
    exact ⟨h1, h2, h3, h4, rfl, h6⟩

theorem setAccelerateSlider_inSync (x : ℚ) {a : App} (h : InSync a) :
    InSync (setAccelerateSlider x a) := by
  unfold setAccelerateSlider
  dsimp only
  split_ifs with hc
  · exact h
  · obtain ⟨h1, h2, h3, h4, h5, _⟩ := h
    exact ⟨h1, h2, h3, h4, h5, rfl⟩

theorem applyPreset_inSync (I : ℚ → Vec3) (m k d f s p : ℚ) {a : App} (h : InSync a) :
    InSync (applyPreset I m k d f s p a) :=
  setAccelerateSlider_inSync _ (setSteerSlider_inSync _ (setFrictionSlider_inSync _
    (setDampingSlider_inSync _ (setStiffnessSlider_inSync _ (setMassSlider_inSync I _ h)))))

/-- After a preset every one of the six sliders holds the listed value clamped
to the range of the slider; the stability slider is untouched. -/
theorem applyPreset_panel (I : ℚ → Vec3) (m k d f s p : ℚ) (a : App) :
    (applyPreset I m k d f s p a).panel =
      { mass := sliderValue 500 3000 m
        stiffness := sliderValue 50000 150000 k
        damping := sliderValue 50 500 d
        friction := sliderValue 0 10 f
        steer := sliderValue 0 1 s
        accelerate := sliderValue 0 1000 p
        stability := a.panel.stability } := by
  unfold applyPreset
  rw [setAccelerateSlider_panel, setSteerSlider_panel, setFrictionSlider_panel,
    setDampingSlider_panel, setStiffnessSlider_panel, setMassSlider_panel]

/-- From a state in which the live tunables agree with the sliders, a preset
leaves each live tunable at the listed value clamped to the slider range. -/
theorem applyPreset_tunables (I : ℚ → Vec3) (m k d f s p : ℚ) {a : App} (h : InSync a) :
    (applyPreset I m k d f s p a).vehicle.car_mass = sliderValue 500 3000 m ∧
    (applyPreset I m k d f s p a).vehicle.tyre_stiffness = sliderValue 50000 150000 k ∧
    (applyPreset I m k d f s p a).vehicle.tyre_damping = sliderValue 50 500 d / 10000000 ∧
    (applyPreset I m k d f s p a).vehicle.tyre_friction = sliderValue 0 10 f ∧
    (applyPreset I m k d f s p a).vehicle.tyre_steering_angle = sliderValue 0 1 s ∧
    (applyPreset I m k d f s p a).vehicle.maxAcceleration = sliderValue 0 1000 p := by
  have hs := applyPreset_inSync I m k d f s p h
  unfold InSync at hs
  rw [applyPreset_panel] at hs
  exact hs

/-- Claim C13 (defects met by the presets), evaluated at startup (sliders at
their initial values, live tunables as assigned in `main`; the inertia
stand-ins play no part).  "Normal" changes no slider, so no setter runs and the
live stiffness, damping, friction and acceleration power keep their startup
values instead of the listed ones.  "Sport" leaves the stiffness at the slider
minimum `50000`, not at the listed `13000`, and delivers its five other values.
"Muscle" and "Pimp" deliver all six listed values. -/
theorem C13_presets_at_startup :
    ((preset0_callback (fun _ => ⟨0, 0, 0⟩)
        (startupApp ⟨0, 0, 0⟩ ⟨0, 0, 0⟩ ⟨0, 0, 0⟩)).vehicle.tyre_stiffness = 100000 ∧
      (preset0_callback (fun _ => ⟨0, 0, 0⟩)
        (startupApp ⟨0, 0, 0⟩ ⟨0, 0, 0⟩ ⟨0, 0, 0⟩)).vehicle.tyre_stiffness ≠ 95000 ∧
      (preset0_callback (fun _ => ⟨0, 0, 0⟩)
        (startupApp ⟨0, 0, 0⟩ ⟨0, 0, 0⟩ ⟨0, 0, 0⟩)).vehicle.tyre_damping ≠ 200 / 10000000 ∧
      (preset0_callback (fun _ => ⟨0, 0, 0⟩)
        (startupApp ⟨0, 0, 0⟩ ⟨0, 0, 0⟩ ⟨0, 0, 0⟩)).vehicle.tyre_friction ≠ 225 / 100 ∧
      (preset0_callback (fun _ => ⟨0, 0, 0⟩)
        (startupApp ⟨0, 0, 0⟩ ⟨0, 0, 0⟩ ⟨0, 0, 0⟩)).vehicle.maxAcceleration ≠ 350 ∧
      preset0_callback (fun _ => ⟨0, 0, 0⟩) (startupApp ⟨0, 0, 0⟩ ⟨0, 0, 0⟩ ⟨0, 0, 0⟩)
        = startupApp ⟨0, 0, 0⟩ ⟨0, 0, 0⟩ ⟨0, 0, 0⟩) ∧
    ((preset3_callback (fun _ => ⟨0, 0, 0⟩)
        (startupApp ⟨0, 0, 0⟩ ⟨0, 0, 0⟩ ⟨0, 0, 0⟩)).vehicle.tyre_stiffness = 50000 ∧
      (preset3_callback (fun _ => ⟨0, 0, 0⟩)
        (startupApp ⟨0, 0, 0⟩ ⟨0, 0, 0⟩ ⟨0, 0, 0⟩)).vehicle.tyre_stiffness ≠ 13000 ∧
      (preset3_callback (fun _ => ⟨0, 0, 0⟩)
        (startupApp ⟨0, 0, 0⟩ ⟨0, 0, 0⟩ ⟨0, 0, 0⟩)).vehicle.car_mass = 1780 ∧
      (preset3_callback (fun _ => ⟨0, 0, 0⟩)
        (startupApp ⟨0, 0, 0⟩ ⟨0, 0, 0⟩ ⟨0, 0, 0⟩)).vehicle.tyre_damping = 190 / 10000000 ∧
      (preset3_callback (fun _ => ⟨0, 0, 0⟩)
        (startupApp ⟨0, 0, 0⟩ ⟨0, 0, 0⟩ ⟨0, 0, 0⟩)).vehicle.tyre_friction = 245 / 100 ∧
      (preset3_callback (fun _ => ⟨0, 0, 0⟩)
        (startupApp ⟨0, 0, 0⟩ ⟨0, 0, 0⟩ ⟨0, 0, 0⟩)).vehicle.tyre_steering_angle = 73 / 100 ∧
      (preset3_callback (fun _ => ⟨0, 0, 0⟩)
        (startupApp ⟨0, 0, 0⟩ ⟨0, 0, 0⟩ ⟨0, 0, 0⟩)).vehicle.maxAcceleration = 680) ∧
    ((preset1_callback (fun _ => ⟨0, 0, 0⟩)
        (startupApp ⟨0, 0, 0⟩ ⟨0, 0, 0⟩ ⟨0, 0, 0⟩)).vehicle.car_mass = 1440 ∧
      (preset1_callback (fun _ => ⟨0, 0, 0⟩)
        (startupApp ⟨0, 0, 0⟩ ⟨0, 0, 0⟩ ⟨0, 0, 0⟩)).vehicle.tyre_stiffness = 70000 ∧
      (preset1_callback (fun _ => ⟨0, 0, 0⟩)
        (startupApp ⟨0, 0, 0⟩ ⟨0, 0, 0⟩ ⟨0, 0, 0⟩)).vehicle.tyre_damping = 130 / 10000000 ∧
      (preset1_callback (fun _ => ⟨0, 0, 0⟩)
        (startupApp ⟨0, 0, 0⟩ ⟨0, 0, 0⟩ ⟨0, 0, 0⟩)).vehicle.tyre_friction = 195 / 100 ∧
      (preset1_callback (fun _ => ⟨0, 0, 0⟩)
        (startupApp ⟨0, 0, 0⟩ ⟨0, 0, 0⟩ ⟨0, 0, 0⟩)).vehicle.tyre_steering_angle = 7 / 10 ∧
      (preset1_callback (fun _ => ⟨0, 0, 0⟩)
        (startupApp ⟨0, 0, 0⟩ ⟨0, 0, 0⟩ ⟨0, 0, 0⟩)).vehicle.maxAcceleration = 480) ∧
    ((preset2_callback (fun _ => ⟨0, 0, 0⟩)
        (startupApp ⟨0, 0, 0⟩ ⟨0, 0, 0⟩ ⟨0, 0, 0⟩)).vehicle.car_mass = 1560 ∧
      (preset2_callback (fun _ => ⟨0, 0, 0⟩)
        (startupApp ⟨0, 0, 0⟩ ⟨0, 0, 0⟩ ⟨0, 0, 0⟩)).vehicle.tyre_stiffness = 80000 ∧
      (preset2_callback (fun _ => ⟨0, 0, 0⟩)
        (startupApp ⟨0, 0, 0⟩ ⟨0, 0, 0⟩ ⟨0, 0, 0⟩)).vehicle.tyre_damping = 420 / 10000000 ∧
      (preset2_callback (fun _ => ⟨0, 0, 0⟩)
        (startupApp ⟨0, 0, 0⟩ ⟨0, 0, 0⟩ ⟨0, 0, 0⟩)).vehicle.tyre_friction = 175 / 100 ∧
      (preset2_callback (fun _ => ⟨0, 0, 0⟩)
        (startupApp ⟨0, 0, 0⟩ ⟨0, 0, 0⟩ ⟨0, 0, 0⟩)).vehicle.tyre_steering_angle = 69 / 100 ∧
      (preset2_callback (fun _ => ⟨0, 0, 0⟩)
        (startupApp ⟨0, 0, 0⟩ ⟨0, 0, 0⟩ ⟨0, 0, 0⟩)).vehicle.maxAcceleration = 420) := by
  have h0 : preset0_callback (fun _ => ⟨0, 0, 0⟩) (startupApp ⟨0, 0, 0⟩ ⟨0, 0, 0⟩ ⟨0, 0, 0⟩)
      = startupApp ⟨0, 0, 0⟩ ⟨0, 0, 0⟩ ⟨0, 0, 0⟩ := by
    norm_num [preset0_callback, applyPreset, setMassSlider, setStiffnessSlider,
      setDampingSlider, setFrictionSlider, setSteerSlider, setAccelerateSlider, sliderValue,
      startupApp, startupPanel]
  refine ⟨?_, ?_, ?_, ?_⟩
  · rw [h0]
    norm_num [startupApp, startupVehicle]
  · norm_num [preset3_callback, applyPreset, setMassSlider, setStiffnessSlider,
      setDampingSlider, setFrictionSlider, setSteerSlider, setAccelerateSlider, sliderValue,
      startupApp, startupPanel, startupVehicle, mass_callback, stiffness_callback,
      damping_callback, friction_callback, steering_callback, acceleration_callback]
  · norm_num [preset1_callback, applyPreset, setMassSlider, setStiffnessSlider,
      setDampingSlider, setFrictionSlider, setSteerSlider, setAccelerateSlider, sliderValue,
      startupApp, startupPanel, startupVehicle, mass_callback, stiffness_callback,
      damping_callback, friction_callback, steering_callback, acceleration_callback]
  · norm_num [preset2_callback, applyPreset, setMassSlider, setStiffnessSlider,
      setDampingSlider, setFrictionSlider, setSteerSlider, setAccelerateSlider, sliderValue,
      startupApp, startupPanel, startupVehicle, mass_callback, stiffness_callback,
      damping_callback, friction_callback, steering_callback, acceleration_callback]

/-- From every state in which each live tunable agrees with its slider, each
preset leaves mass, damping, friction, steering-angle limit and acceleration
power at the listed values, and Normal, Muscle and Pimp also leave the
stiffness at the listed value. -/
theorem presets_from_synced_state (I : ℚ → Vec3) (a : App) (h : InSync a) :
    ((preset0_callback I a).vehicle.car_mass = 1250 ∧
      (preset0_callback I a).vehicle.tyre_stiffness = 95000 ∧
      (preset0_callback I a).vehicle.tyre_damping = 200 / 10000000 ∧
      (preset0_callback I a).vehicle.tyre_friction = 225 / 100 ∧
      (preset0_callback I a).vehicle.tyre_steering_angle = 5 / 10 ∧
      (preset0_callback I a).vehicle.maxAcceleration = 350) ∧
    ((preset1_callback I a).vehicle.car_mass = 1440 ∧
      (preset1_callback I a).vehicle.tyre_stiffness = 70000 ∧
      (preset1_callback I a).vehicle.tyre_damping = 130 / 10000000 ∧
      (preset1_callback I a).vehicle.tyre_friction = 195 / 100 ∧
      (preset1_callback I a).vehicle.tyre_steering_angle = 7 / 10 ∧
      (preset1_callback I a).vehicle.maxAcceleration = 480) ∧
    ((preset2_callback I a).vehicle.car_mass = 1560 ∧
      (preset2_callback I a).vehicle.tyre_stiffness = 80000 ∧
      (preset2_callback I a).vehicle.tyre_damping = 420 / 10000000 ∧
      (preset2_callback I a).vehicle.tyre_friction = 175 / 100 ∧
      (preset2_callback I a).vehicle.tyre_steering_angle = 69 / 100 ∧
      (preset2_callback I a).vehicle.maxAcceleration = 420) ∧
    ((preset3_callback I a).vehicle.car_mass = 1780 ∧
      (preset3_callback I a).vehicle.tyre_damping = 190 / 10000000 ∧
      (preset3_callback I a).vehicle.tyre_friction = 245 / 100 ∧
      (preset3_callback I a).vehicle.tyre_steering_angle = 73 / 100 ∧
      (preset3_callback I a).vehicle.maxAcceleration = 680) := by
  have h0 := applyPreset_tunables I 1250 95000 200 (225 / 100) (5 / 10) 350 h
  have h1 := applyPreset_tunables I 1440 70000 130 (195 / 100) (7 / 10) 480 h
  have h2 := applyPreset_tunables I 1560 80000 420 (175 / 100) (69 / 100) 420 h
  have h3 := applyPreset_tunables I 1780 13000 190 (245 / 100) (73 / 100) 680 h
  unfold preset0_callback preset1_callback preset2_callback preset3_callback
  refine ⟨?_, ?_, ?_, ?_⟩
  · obtain ⟨e1, e2, e3, e4, e5, e6⟩ := h0
    rw [e1, e2, e3, e4, e5, e6]
    norm_num [sliderValue]
  · obtain ⟨e1, e2, e3, e4, e5, e6⟩ := h1
    rw [e1, e2, e3, e4, e5, e6]
    norm_num [sliderValue]
  · obtain ⟨e1, e2, e3, e4, e5, e6⟩ := h2
    rw [e1, e2, e3, e4, e5, e6]
    norm_num [sliderValue]
  · obtain ⟨e1, _, e3, e4, e5, e6⟩ := h3
    rw [e1, e3, e4, e5, e6]
    norm_num [sliderValue]

/-! ## Camera and mouse callbacks -/

theorem ProcessMouseMovement_pitch (c : Camera) (x y : ℚ) :
    (c.ProcessMouseMovement x y true).Pitch =
      max (-89) (min 89 (c.Pitch + y * c.MouseSensitivity)) := by
  unfold Camera.ProcessMouseMovement
  simp only [if_true]
  by_cases h1 : c.Pitch + y * c.MouseSensitivity > 89
  · rw [if_pos h1, if_neg (by norm_num), min_eq_left h1.le, max_eq_right (by norm_num)]
  · rw [if_neg h1, min_eq_right (not_lt.mp h1)]
    by_cases h2 : c.Pitch + y * c.MouseSensitivity < -89
    · rw [if_pos h2, max_eq_left h2.le]
    · rw [if_neg h2, max_eq_right (not_lt.mp h2)]

theorem ProcessMouseMovement_sensitivity (c : Camera) (x y : ℚ) (b : Bool) :
    (c.ProcessMouseMovement x y b).MouseSensitivity = c.MouseSensitivity := rfl

theorem mouseMoves_pitch_range (c : Camera) (deltas : List (ℚ × ℚ))
    (h : -89 ≤ c.Pitch ∧ c.Pitch ≤ 89) :
    -89 ≤ (c.mouseMoves deltas).Pitch ∧ (c.mouseMoves deltas).Pitch ≤ 89 := by
  unfold Camera.mouseMoves
  induction deltas generalizing c with
  | nil => exact h
  | cons d ds ih =>
    rw [List.foldl_cons]
    apply ih
    rw [ProcessMouseMovement_pitch]
    exact ⟨le_max_left _ _, max_le (by norm_num) (min_le_left _ _)⟩

/-- Claim C14: for a camera with the constructor's mouse sensitivity `0.25`
(no code changes it), `ProcessMouseMovement` with the pitch constraint enabled
gives `Yaw + 0.25*xoffset` and `clamp(Pitch + 0.25*yoffset, -89, 89)`; from the
constructor's `Pitch = -10`, `Pitch` lies in `[-89, 89]` after any sequence of
such calls. -/
theorem C14_mouse_movement (c : Camera) (xoffset yoffset : ℚ)
    (hs : c.MouseSensitivity = SENSITIVITY) :
    (c.ProcessMouseMovement xoffset yoffset true).Yaw = c.Yaw + 25 / 100 * xoffset ∧
    (c.ProcessMouseMovement xoffset yoffset true).Pitch =
      max (-89) (min 89 (c.Pitch + 25 / 100 * yoffset)) ∧
    (c.ProcessMouseMovement xoffset yoffset true).MouseSensitivity = SENSITIVITY ∧
    (∀ (position : Vec3) (onGround : Bool) (deltas : List (ℚ × ℚ)),
      (Camera.new position onGround).MouseSensitivity = SENSITIVITY ∧
      (Camera.new position onGround).Pitch = -10 ∧
      -89 ≤ ((Camera.new position onGround).mouseMoves deltas).Pitch ∧
      ((Camera.new position onGround).mouseMoves deltas).Pitch ≤ 89) := by
  refine ⟨?_, ?_, hs, ?_⟩
  · show c.Yaw + xoffset * c.MouseSensitivity = _
    rw [hs, SENSITIVITY, mul_comm]
  · rw [ProcessMouseMovement_pitch, hs, SENSITIVITY, mul_comm]
  · intro position onGround deltas
    exact ⟨rfl, rfl, mouseMoves_pitch_range _ deltas (by norm_num [Camera.new, PITCH])⟩

/-- Witness for C14: the camera of `App.cpp` and the mouse delta `(8, 400)`. -/
theorem C14_witness :
    ((Camera.new ⟨0, 25 / 10, 8⟩ false).ProcessMouseMovement 8 400 true).Yaw
      = (Camera.new ⟨0, 25 / 10, 8⟩ false).Yaw + 25 / 100 * 8 ∧
    ((Camera.new ⟨0, 25 / 10, 8⟩ false).ProcessMouseMovement 8 400 true).Pitch
      = max (-89) (min 89 ((Camera.new ⟨0, 25 / 10, 8⟩ false).Pitch + 25 / 100 * 400)) :=
  ⟨(C14_mouse_movement (Camera.new ⟨0, 25 / 10, 8⟩ false) 8 400 rfl).1,
   (C14_mouse_movement (Camera.new ⟨0, 25 / 10, 8⟩ false) 8 400 rfl).2.1⟩

/-- Claim C15: `scroll_callback` leaves the orbit radius at the previous
radius minus `y/2` and `basePitch` at its previous value clamped into
`[0, 20]`, hence inside `[0, 20]`. -/
theorem C15_scroll_callback (x y : ℚ) (s : ViewState) :
    (scroll_callback x y s).cameraRadius = s.cameraRadius - y / 2 ∧
    (scroll_callback x y s).basePitch = max 0 (min 20 s.basePitch) ∧
    0 ≤ (scroll_callback x y s).basePitch ∧ (scroll_callback x y s).basePitch ≤ 20 := by
  have hp : (scroll_callback x y s).basePitch = max 0 (min 20 s.basePitch) := by
    unfold scroll_callback
    dsimp only
    by_cases h1 : s.basePitch > 20
    · rw [if_pos h1, if_neg (by norm_num), min_eq_left h1.le, max_eq_right (by norm_num)]
    · rw [if_neg h1, min_eq_right (not_lt.mp h1)]
      by_cases h2 : s.basePitch < 0
      · rw [if_pos h2, max_eq_left h2.le]
      · rw [if_neg h2, max_eq_right (not_lt.mp h2)]
  refine ⟨rfl, hp, ?_, ?_⟩
  · rw [hp]; exact le_max_left _ _
  · rw [hp]; exact max_le (by norm_num) (min_le_left _ _)

/-- Claim C16: in follow mode with the rotate trigger inactive,
`mouse_callback` leaves `baseYaw`, `basePitch` and the camera (its `Yaw`,
`Pitch` and `Position`) unchanged; only the remembered mouse coordinates and
the first-mouse flag change. -/
theorem C16_mouse_move_without_rotate (xpos ypos : ℚ) (s : ViewState)
    (hr : s.rotating = false) :
    (mouse_callback true xpos ypos s).baseYaw = s.baseYaw ∧
    (mouse_callback true xpos ypos s).basePitch = s.basePitch ∧
    (mouse_callback true xpos ypos s).camera.Yaw = s.camera.Yaw ∧
    (mouse_callback true xpos ypos s).camera.Pitch = s.camera.Pitch ∧
    (mouse_callback true xpos ypos s).camera.Position = s.camera.Position ∧
    mouse_callback true xpos ypos s =
      { s with lastX := xpos, lastY := ypos, firstMouse := false } := by
  have h : mouse_callback true xpos ypos s =
      { s with lastX := xpos, lastY := ypos, firstMouse := false } := by
    unfold mouse_callback
    cases hf : s.firstMouse <;> simp [hr, hf]
  rw [h]
  exact ⟨rfl, rfl, rfl, rfl, rfl, rfl⟩

/-- Witness for C16: the first mouse event after startup in follow mode. -/
theorem C16_witness :
    (mouse_callback true 100 200 ViewState.init).baseYaw = ViewState.init.baseYaw ∧
    (mouse_callback true 100 200 ViewState.init).camera = ViewState.init.camera ∧
    (mouse_callback true 100 200 ViewState.init).lastX = 100 :=
  have h := C16_mouse_move_without_rotate 100 200 ViewState.init rfl
  ⟨h.1, by rw [h.2.2.2.2.2], by rw [h.2.2.2.2.2]⟩

/-! ## Drive torque: value, gating and distribution -/

theorem driveTorques_of_applied (M maxV : ℚ) (a : Int) (s v : ℚ) (hb : Bool)
    (h : torqueApplied a v maxV = true) :
    driveTorques M maxV a s v hb =
      [(Wheel.t1, torque M a s v), (Wheel.t2, torque M a s v)] ++
        (if hb then [] else [(Wheel.t3, torque M a s v), (Wheel.t4, torque M a s v)]) := by
  unfold driveTorques
  rw [if_pos h]

theorem driveTorques_of_not_applied (M maxV : ℚ) (a : Int) (s v : ℚ) (hb : Bool)
    (h : torqueApplied a v maxV = false) : driveTorques M maxV a s v hb = [] := by
  unfold driveTorques
  rw [if_neg (by rw [h]; exact Bool.false_ne_true)]

theorem driveTorques_ne_nil_iff (M maxV : ℚ) (a : Int) (s v : ℚ) (hb : Bool) :
    driveTorques M maxV a s v hb ≠ [] ↔ torqueApplied a v maxV = true := by
  cases h : torqueApplied a v maxV
  · rw [driveTorques_of_not_applied _ _ _ _ _ _ h]; simp
  · rw [driveTorques_of_applied _ _ _ _ _ _ h]; simp

/-- Claim C17: every drive torque applied in a frame has the scalar value
`torque`, which is `-maxTorque * intent * (1 - |steering|/2)` at speed `> 10`
and `-maxTorque * intent` at speed `≤ 10` (the threshold `10` is a literal);
so at speed `≤ 10` it does not depend on steering, and at intent `0` it is
`0`. -/
theorem C17_torque_value (maxTorque maxVelocity : ℚ) (intent : Int)
    (steering steering2 v : ℚ) (handbrake : Bool) :
    (∀ e ∈ driveTorques maxTorque maxVelocity intent steering v handbrake,
      e.2 = torque maxTorque intent steering v) ∧
    (v > 10 → torque maxTorque intent steering v
      = -maxTorque * intent * (1 - |steering| / 2)) ∧
    (v ≤ 10 → torque maxTorque intent steering v = -maxTorque * intent) ∧
    (v ≤ 10 → torque maxTorque intent steering v = torque maxTorque intent steering2 v) ∧
    torque maxTorque 0 steering v = 0 := by
  refine ⟨?_, ?_, ?_, ?_, ?_⟩
  · intro e he
    cases h : torqueApplied intent v maxVelocity
    · rw [driveTorques_of_not_applied _ _ _ _ _ _ h] at he
      exact absurd he (List.not_mem_nil _)
    · rw [driveTorques_of_applied _ _ _ _ _ _ h] at he
      cases handbrake <;> simp at he <;> rcases he with rfl | rfl | rfl | rfl <;> rfl
  · intro h
    unfold torque
    rw [if_pos h, mul_one]
  · intro h
    unfold torque
    rw [if_neg (not_lt.mpr h)]
    ring
  · intro h
    unfold torque
    simp only [if_neg (not_lt.mpr h)]
    ring
  · unfold torque
    simp

/-- Witness for C17: `maxTorque = 500`, intent `+1`, steering `1/2`, speeds
`20` and `5`. -/
theorem C17_witness :
    torque 500 1 (1 / 2) 20 = -500 * (1 : Int) * (1 - |(1 / 2 : ℚ)| / 2) ∧
    torque 500 1 (1 / 2) 5 = -500 * (1 : Int) ∧
    (∀ e ∈ driveTorques 500 50 1 (1 / 2) 20 false, e.2 = torque 500 1 (1 / 2) 20) :=
  ⟨(C17_torque_value 500 50 1 (1 / 2) 0 20 false).2.1 (by norm_num),
   (C17_torque_value 500 50 1 (1 / 2) 0 5 false).2.2.1 (by norm_num),
   (C17_torque_value 500 50 1 (1 / 2) 0 20 false).1⟩

/-- Claim C18 as stated fails: at `maxVelocity = 50`, intent `-1` and speed
`5 = maxVelocity/10` the frame is not in the hard-brake condition and `5` is
below `maxVelocity/9`, yet no drive torque is applied. -/
theorem C18_counterexample :
    (0 : ℚ) < 50 ∧ ¬ ((-1 : Int) < 0 ∧ (5 : ℚ) > 50 / 10) ∧ (5 : ℚ) < 50 / 9 ∧
    torqueApplied (-1) 5 50 = false ∧ driveTorques 500 50 (-1) 0 5 false = [] := by
  norm_num [torqueApplied, driveTorques]

/-- Claim C18, amended: for every positive `maxVelocity` and speed `v`, drive
torque is applied in a frame exactly when the frame is not in the hard-brake
condition (intent negative and `v > maxVelocity/10`) and `v` is strictly below
the effective cap, which is `maxVelocity` at intent `0` or `+1` and one-tenth
of `maxVelocity` at intent `-1`. -/
theorem C18_torque_gate (maxTorque maxVelocity v steering : ℚ) (intent : Int)
    (handbrake : Bool) (_hm : 0 < maxVelocity)
    (hi : intent = -1 ∨ intent = 0 ∨ intent = 1) :
    driveTorques maxTorque maxVelocity intent steering v handbrake ≠ [] ↔
      (¬ (intent < 0 ∧ v > maxVelocity / 10) ∧
        v < (if intent = -1 then maxVelocity / 10 else maxVelocity)) := by
  rw [driveTorques_ne_nil_iff]
  unfold torqueApplied
  rcases hi with h | h | h <;> subst h
  · by_cases hv : v > maxVelocity / 10
    · have : ¬ v < maxVelocity / 10 := not_lt.mpr hv.le
      simp [hv]
    · simp [hv]
      norm_num
  · simp
  · simp

/-- Witness for the amended C18: at `maxVelocity = 50`, reversing at speed `4`
applies torque. -/
theorem C18_witness :
    driveTorques 500 50 (-1) 0 4 false ≠ [] ↔
      (¬ ((-1 : Int) < 0 ∧ (4 : ℚ) > 50 / 10) ∧
        (4 : ℚ) < (if (-1 : Int) = -1 then (50 : ℚ) / 10 else 50)) :=
  C18_torque_gate 500 50 4 0 (-1) false (by norm_num) (Or.inl rfl)

/-- Claim C19: in a frame in which drive torque is applied, both front wheels
receive the same torque whatever the handbrake, and both rear wheels receive it
exactly when the handbrake is not engaged; in a frame in which it is not
applied no wheel receives torque. -/
theorem C19_torque_distribution (maxTorque maxVelocity : ℚ) (intent : Int)
    (steering v : ℚ) :
    (torqueApplied intent v maxVelocity = true →
      driveTorques maxTorque maxVelocity intent steering v true =
        [(Wheel.t1, torque maxTorque intent steering v),
         (Wheel.t2, torque maxTorque intent steering v)] ∧
      driveTorques maxTorque maxVelocity intent steering v false =
        [(Wheel.t1, torque maxTorque intent steering v),
         (Wheel.t2, torque maxTorque intent steering v),
         (Wheel.t3, torque maxTorque intent steering v),
         (Wheel.t4, torque maxTorque intent steering v)]) ∧
    (torqueApplied intent v maxVelocity = false →
      ∀ handbrake, driveTorques maxTorque maxVelocity intent steering v handbrake = []) := by
  constructor
  · intro h
    rw [driveTorques_of_applied _ _ _ _ _ _ h, driveTorques_of_applied _ _ _ _ _ _ h]
    exact ⟨rfl, rfl⟩
  · intro h handbrake
    exact driveTorques_of_not_applied _ _ _ _ _ _ h

/-- Witness for C19: forward at speed `20` applies torque; braking at speed
`20` applies none. -/
theorem C19_witness :
    (driveTorques 500 50 1 0 20 true =
        [(Wheel.t1, torque 500 1 0 20), (Wheel.t2, torque 500 1 0 20)] ∧
      driveTorques 500 50 1 0 20 false =
        [(Wheel.t1, torque 500 1 0 20), (Wheel.t2, torque 500 1 0 20),
         (Wheel.t3, torque 500 1 0 20), (Wheel.t4, torque 500 1 0 20)]) ∧
    (∀ handbrake, driveTorques 500 50 (-1) 0 20 handbrake = []) :=
  ⟨(C19_torque_distribution 500 50 1 0 20).1 (by norm_num [torqueApplied]),
   (C19_torque_distribution 500 50 (-1) 0 20).2 (by norm_num [torqueApplied])⟩

/-- Claim C20: in every frame both front joints are written angular lower
limit `(b, a*s, 0)` and upper limit `(-b, a*s, 0)`, whatever the handbrake
(the limits written by a frame equal those written with the handbrake flag
flipped); the throttle intent enters only through the braking flag `b`. -/
theorem C20_front_limits (b : Int) (steering : ℚ) (handbrake : Bool) (v : Vehicle)
    (st : InputState) (linearVelocity : ℚ) :
    (updateLimits b steering handbrake v).c1.angularLower
      = ⟨b, v.tyre_steering_angle * steering, 0⟩ ∧
    (updateLimits b steering handbrake v).c1.angularUpper
      = ⟨-b, v.tyre_steering_angle * steering, 0⟩ ∧
    (updateLimits b steering handbrake v).c2.angularLower
      = ⟨b, v.tyre_steering_angle * steering, 0⟩ ∧
    (updateLimits b steering handbrake v).c2.angularUpper
      = ⟨-b, v.tyre_steering_angle * steering, 0⟩ ∧
    (frameLimits st linearVelocity v).c1 =
      (updateLimits (braking st.acceleration linearVelocity v.maxVelocity) st.steering
        (!st.handbrake) v).c1 ∧
    (frameLimits st linearVelocity v).c2 =
      (updateLimits (braking st.acceleration linearVelocity v.maxVelocity) st.steering
        (!st.handbrake) v).c2 := by
  simp [frameLimits, updateLimits, Joint.setAngular]

/-! ## Angular and linear limits of the joints -/

/-- Claim C21 as stated fails: with braking flag `1`, steering `1` and the
startup steering-angle limit `1/2`, the front joint `c1` is written lower
`(1, 1/2, 0)` and upper `(-1, 1/2, 0)`; the negation of the upper limit is
`(1, -1/2, 0)`. -/
theorem C21_counterexample :
    (updateLimits 1 1 false (startupVehicle ⟨0, 0, 0⟩ ⟨0, 0, 0⟩ ⟨0, 0, 0⟩)).c1.angularLower
      = ⟨1, 1 / 2, 0⟩ ∧
    (updateLimits 1 1 false (startupVehicle ⟨0, 0, 0⟩ ⟨0, 0, 0⟩ ⟨0, 0, 0⟩)).c1.angularUpper
      = ⟨-1, 1 / 2, 0⟩ ∧
    (updateLimits 1 1 false (startupVehicle ⟨0, 0, 0⟩ ⟨0, 0, 0⟩ ⟨0, 0, 0⟩)).c1.angularLower
      ≠ ((updateLimits 1 1 false
          (startupVehicle ⟨0, 0, 0⟩ ⟨0, 0, 0⟩ ⟨0, 0, 0⟩)).c1.angularUpper).neg := by
  norm_num [updateLimits, Joint.setAngular, startupVehicle, Vec3.neg]

/-- Claim C21, amended: after the per-frame limit update each rear joint has
antisymmetric angular limits (lower is the componentwise negation of upper),
and each front joint has limits antisymmetric in the first and third
components and equal in the second (both `a*s`), so a front joint is
antisymmetric exactly when `a*s = 0`. -/
theorem C21_limits_antisymmetry (b : Int) (steering : ℚ) (handbrake : Bool) (v : Vehicle) :
    (updateLimits b steering handbrake v).c3.angularLower
      = ((updateLimits b steering handbrake v).c3.angularUpper).neg ∧
    (updateLimits b steering handbrake v).c4.angularLower
      = ((updateLimits b steering handbrake v).c4.angularUpper).neg ∧
    ((updateLimits b steering handbrake v).c1.angularLower.x
        = -(updateLimits b steering handbrake v).c1.angularUpper.x ∧
      (updateLimits b steering handbrake v).c1.angularLower.z
        = -(updateLimits b steering handbrake v).c1.angularUpper.z ∧
      (updateLimits b steering handbrake v).c1.angularLower.y
        = (updateLimits b steering handbrake v).c1.angularUpper.y ∧
      (updateLimits b steering handbrake v).c1.angularLower.y
        = v.tyre_steering_angle * steering) ∧
    ((updateLimits b steering handbrake v).c2.angularLower.x
        = -(updateLimits b steering handbrake v).c2.angularUpper.x ∧
      (updateLimits b steering handbrake v).c2.angularLower.z
        = -(updateLimits b steering handbrake v).c2.angularUpper.z ∧
      (updateLimits b steering handbrake v).c2.angularLower.y
        = (updateLimits b steering handbrake v).c2.angularUpper.y ∧
      (updateLimits b steering handbrake v).c2.angularLower.y
        = v.tyre_steering_angle * steering) ∧
    ((updateLimits b steering handbrake v).c1.angularLower
        = ((updateLimits b steering handbrake v).c1.angularUpper).neg ↔
      v.tyre_steering_angle * steering = 0) ∧
    ((updateLimits b steering handbrake v).c2.angularLower
        = ((updateLimits b steering handbrake v).c2.angularUpper).neg ↔
      v.tyre_steering_angle * steering = 0) := by
  have hy : ∀ q : ℚ, q = -q ↔ q = 0 := fun q => by
    constructor <;> intro h <;> linarith
  cases handbrake <;>
    simp [updateLimits, Joint.setAngular, Vec3.neg, hy]

/-- Claim C22 (defect at joint creation): each of the four joints is created
with linear lower limit `(0, -lowLim, 0) = (0, 0, 0)` and linear upper limit
`(0, -upLim, 0) = (0, -1/10, 0)`.  On X and Z both limits are `0`, but on Y the
lower limit `0` is above the upper limit `-1/10`. -/
theorem C22_linear_limits_as_created (carInertia frontInertia rearInertia : Vec3) :
    ((startupVehicle carInertia frontInertia rearInertia).c1.linearLower = ⟨0, 0, 0⟩ ∧
      (startupVehicle carInertia frontInertia rearInertia).c1.linearUpper
        = ⟨0, -(1 / 10), 0⟩) ∧
    ((startupVehicle carInertia frontInertia rearInertia).c2.linearLower = ⟨0, 0, 0⟩ ∧
      (startupVehicle carInertia frontInertia rearInertia).c2.linearUpper
        = ⟨0, -(1 / 10), 0⟩) ∧
    ((startupVehicle carInertia frontInertia rearInertia).c3.linearLower = ⟨0, 0, 0⟩ ∧
      (startupVehicle carInertia frontInertia rearInertia).c3.linearUpper
        = ⟨0, -(1 / 10), 0⟩) ∧
    ((startupVehicle carInertia frontInertia rearInertia).c4.linearLower = ⟨0, 0, 0⟩ ∧
      (startupVehicle carInertia frontInertia rearInertia).c4.linearUpper
        = ⟨0, -(1 / 10), 0⟩) ∧
    ¬ ((startupVehicle carInertia frontInertia rearInertia).c1.linearLower.y
        ≤ (startupVehicle carInertia frontInertia rearInertia).c1.linearUpper.y) ∧
    (startupVehicle carInertia frontInertia rearInertia).c1.linearUpper.y
      - (startupVehicle carInertia frontInertia rearInertia).c1.linearLower.y = -(1 / 10) := by
  norm_num [startupVehicle, createJoint]

/-! ## Torque gating and throttle sampling -/

/-- Claim C25: in a frame whose braking flag is `0` no drive torque is applied
to any wheel, and no drive torque is applied in a frame whose chassis speed
(a magnitude, `≥ 0`) is at least `maxVelocity`. -/
theorem C25_no_torque_when_braking_or_fast (maxTorque maxVelocity : ℚ) (intent : Int)
    (steering v : ℚ) (handbrake : Bool) (hv : 0 ≤ v) :
    (braking intent v maxVelocity = 0 →
      driveTorques maxTorque maxVelocity intent steering v handbrake = []) ∧
    (maxVelocity ≤ v →
      driveTorques maxTorque maxVelocity intent steering v handbrake = []) := by
  constructor
  · intro hb
    apply driveTorques_of_not_applied
    unfold braking at hb
    unfold torqueApplied
    by_cases hc : intent < 0 ∧ v > maxVelocity / 10
    · rw [if_pos hc]
    · rw [if_neg hc] at hb
      exact absurd hb (by norm_num)
  · intro hm
    apply driveTorques_of_not_applied
    unfold torqueApplied
    by_cases hc : intent < 0 ∧ v > maxVelocity / 10
    · rw [if_pos hc]
    · rw [if_neg hc]
      by_cases hi : intent < 0
      · have h10 : ¬ v > maxVelocity / 10 := fun h => hc ⟨hi, h⟩
        simp only [hi, if_true, decide_eq_false_iff_not, not_lt]
        norm_num
        linarith [not_lt.mp h10]
      · simp only [hi, if_false, decide_eq_false_iff_not, not_lt]
        norm_num
        exact hm

/-- Witness for C25: braking at speed `20` (flag `0`) and driving forward at
speed `60` with `maxVelocity = 50` apply no torque. -/
theorem C25_witness :
    driveTorques 500 50 (-1) 0 20 false = [] ∧ driveTorques 500 50 1 0 60 false = [] :=
  ⟨(C25_no_torque_when_braking_or_fast 500 50 (-1) 0 20 false (by norm_num)).1
      (by norm_num [braking]),
   (C25_no_torque_when_braking_or_fast 500 50 1 0 60 false (by norm_num)).2 (by norm_num)⟩

/-- Claim C26: after `processInput` the handbrake flag equals the SPACE key
for every combination of UP and DOWN (with no key held it is `false`, whatever
it was before), and the throttle intent is `+1` if UP is held, else `-1` if
DOWN is held, else `0`. -/
theorem C26_handbrake_and_intent (k : Keys) (st : InputState) :
    (processInput k st).handbrake = k.space ∧
    (processInput k st).acceleration = (if k.up then 1 else if k.down then -1 else 0) ∧
    (processInput Keys.none st).handbrake = false ∧
    (processInput Keys.none st).acceleration = 0 := by
  refine ⟨?_, ?_, rfl, rfl⟩
  · show handbrakeUpdate k.space = k.space
    cases k.space <;> rfl
  · show (throttleUpdate k.up k.down st.handbrake).1 = _
    unfold throttleUpdate
    cases k.up <;> cases k.down <;> rfl

/-! ## Scene construction and startup values -/

/-- Claim C28: scene construction adds 49 collision objects: the 40 terrain
tiles (every cell of `track` is `0` or `1`; the index `i*grid_height + j`
enumerates `0..39` in creation order), 4 walls, the chassis and the wheels
`t1..t4`; so index 44 is the chassis, 45 and 46 the front wheels, 47 and 48 the
rear wheels, and the render loop never takes the `default` branch. -/
theorem C28_scene_order :
    sceneBodies.length = 49 ∧
    sceneBodies =
      ((List.range 5).flatMap fun i => (List.range 8).map fun j => SceneBody.tile i j) ++
      [SceneBody.wall 0, SceneBody.wall 1, SceneBody.wall 2, SceneBody.wall 3,
       SceneBody.chassis, SceneBody.wheel Wheel.t1, SceneBody.wheel Wheel.t2,
       SceneBody.wheel Wheel.t3, SceneBody.wheel Wheel.t4] ∧
    (track.all fun row => row.length = 5 && row.all fun c => c = 0 || c = 1) = true ∧
    track.length = 8 ∧
    ((List.range 5).flatMap fun i => (List.range 8).map fun j => planeIndex i j)
      = List.range 40 ∧
    sceneBodies.drop 44 =
      [SceneBody.chassis, SceneBody.wheel Wheel.t1, SceneBody.wheel Wheel.t2,
       SceneBody.wheel Wheel.t3, SceneBody.wheel Wheel.t4] ∧
    renderLoop sceneBodies.length =
      some [CarModel.mModel, CarModel.t1Model, CarModel.t1Model, CarModel.t2Model,
        CarModel.t2Model] := by
  decide

/-- Claim C29 (startup mismatch): when the game loop starts, the live mass,
steering-angle limit and stability assist equal the slider values, but the live
suspension stiffness (`100000`), suspension damping (`225/10^7`), tyre friction
(`2.35`) and acceleration power (`500`) differ from what the sliders display
(`95000`, `200`, `2.25`, `350`). -/
theorem C29_startup_tunables (carInertia frontInertia rearInertia : Vec3) :
    (startupApp carInertia frontInertia rearInertia).panel
      = ⟨1250, 95000, 200, 225 / 100, 5 / 10, 350, 5 / 10⟩ ∧
    ((startupApp carInertia frontInertia rearInertia).vehicle.car_mass = 1250 ∧
      (startupApp carInertia frontInertia rearInertia).vehicle.tyre_steering_angle = 5 / 10 ∧
      (startupApp carInertia frontInertia rearInertia).vehicle.assist = 5 / 10) ∧
    ((startupApp carInertia frontInertia rearInertia).vehicle.tyre_stiffness = 100000 ∧
      (startupApp carInertia frontInertia rearInertia).vehicle.tyre_damping
        = 225 / 10000000 ∧
      (startupApp carInertia frontInertia rearInertia).vehicle.tyre_friction = 235 / 100 ∧
      (startupApp carInertia frontInertia rearInertia).vehicle.maxAcceleration = 500) ∧
    ¬ InSync (startupApp carInertia frontInertia rearInertia) := by
  refine ⟨rfl, ⟨rfl, rfl, rfl⟩, ⟨rfl, rfl, rfl, rfl⟩, ?_⟩
  intro h
  have := h.2.1
  norm_num [startupApp, startupVehicle, startupPanel] at this

/-! ## Follow camera -/

theorem real_cosDeg_ninety : Real.cos ((90 : ℝ) * Real.pi / 180) = 0 := by
  rw [show (90 : ℝ) * Real.pi / 180 = Real.pi / 2 by ring, Real.cos_pi_div_two]

theorem real_sinDeg_ninety : Real.sin ((90 : ℝ) * Real.pi / 180) = 1 := by
  rw [show (90 : ℝ) * Real.pi / 180 = Real.pi / 2 by ring, Real.sin_pi_div_two]

/-- Claim C23 as stated fails: with the chassis turned half a turn about the
vertical axis (basis `rotY (-1) 0`), origin `0`, steering `0`, yaw velocity `0`,
yaw offset `0` and radius `8`, the angle is `90` degrees and the camera is at
`z = -8`, while origin + R*(cos t, sin t) has `z = 8`. -/
theorem C23_counterexample :
    followAngle (K := ℝ) ⟨fun d => Real.cos (d * Real.pi / 180),
        fun d => Real.sin (d * Real.pi / 180), Real.sqrt,
        fun y x => Complex.arg ⟨x, y⟩ * 180 / Real.pi⟩ 0 (-0) 0 = 90 ∧
    (cameraFollowPos (K := ℝ) ⟨fun d => Real.cos (d * Real.pi / 180),
        fun d => Real.sin (d * Real.pi / 180), Real.sqrt,
        fun y x => Complex.arg ⟨x, y⟩ * 180 / Real.pi⟩
        (M3.rotY (-1) 0) ⟨0, 0, 0⟩ 0 0 0 8 (-10)).z = -8 ∧
    (0 : ℝ) + 8 * Real.sin ((90 : ℝ) * Real.pi / 180) = 8 ∧
    (cameraFollowPos (K := ℝ) ⟨fun d => Real.cos (d * Real.pi / 180),
        fun d => Real.sin (d * Real.pi / 180), Real.sqrt,
        fun y x => Complex.arg ⟨x, y⟩ * 180 / Real.pi⟩
        (M3.rotY (-1) 0) ⟨0, 0, 0⟩ 0 0 0 8 (-10)).z
      ≠ 0 + 8 * Real.sin ((90 : ℝ) * Real.pi / 180) := by
  have ha : followAngle (K := ℝ) ⟨fun d => Real.cos (d * Real.pi / 180),
        fun d => Real.sin (d * Real.pi / 180), Real.sqrt,
        fun y x => Complex.arg ⟨x, y⟩ * 180 / Real.pi⟩ 0 (-0) 0 = 90 := by
    simp [followAngle]
  have hz : (cameraFollowPos (K := ℝ) ⟨fun d => Real.cos (d * Real.pi / 180),
        fun d => Real.sin (d * Real.pi / 180), Real.sqrt,
        fun y x => Complex.arg ⟨x, y⟩ * 180 / Real.pi⟩
        (M3.rotY (-1) 0) ⟨0, 0, 0⟩ 0 0 0 8 (-10)).z = -8 := by
    simp only [cameraFollowPos, followNewPos, ha, M3.rotY, M3.mulVec, V3.dot,
      real_cosDeg_ninety, real_sinDeg_ninety]
    norm_num
  refine ⟨ha, hz, ?_, ?_⟩
  · rw [real_sinDeg_ninety]; norm_num
  · rw [hz, real_sinDeg_ninety]; norm_num

/-- Claim C23, amended: in follow mode the camera's horizontal position after
the per-frame update is the chassis origin `(x, z)` plus the `(x, z)` components
of the chassis rotation applied to `R*(cos t, 0, sin t)`, with
`t = -10*sqrt(|steering|)*(-w) + 90 + baseYaw/4` degrees; when the chassis
rotation is the identity this is origin `(x, z) + R*(cos t, sin t)`. -/
theorem C23_follow_position {K : Type} [LinearOrderedField K] (g : Glm K) (basis : M3 K)
    (origin : V3 K) (w steering baseYaw R pitch : K) :
    followAngle g steering (-w) baseYaw
      = -10 * g.sqrt |steering| * (-w) + 90 + baseYaw / 4 ∧
    (cameraFollowPos g basis origin w steering baseYaw R pitch).x = origin.x +
      (basis.mulVec ⟨R * g.cosDeg (followAngle g steering (-w) baseYaw), 0,
        R * g.sinDeg (followAngle g steering (-w) baseYaw)⟩).x ∧
    (cameraFollowPos g basis origin w steering baseYaw R pitch).z = origin.z +
      (basis.mulVec ⟨R * g.cosDeg (followAngle g steering (-w) baseYaw), 0,
        R * g.sinDeg (followAngle g steering (-w) baseYaw)⟩).z ∧
    (cameraFollowPos g M3.identity origin w steering baseYaw R pitch).x
      = origin.x + R * g.cosDeg (followAngle g steering (-w) baseYaw) ∧
    (cameraFollowPos g M3.identity origin w steering baseYaw R pitch).z
      = origin.z + R * g.sinDeg (followAngle g steering (-w) baseYaw) := by
  refine ⟨rfl, ?_, ?_, ?_, ?_⟩ <;>
    simp only [cameraFollowPos, followNewPos, M3.mulVec, V3.dot, M3.identity] <;> ring

/-- With the chassis rotated about the vertical axis, the squared horizontal
length of `newPos` is `R^2`, for any library functions with
`cos^2 + sin^2 = 1`. -/
theorem followNewPos_rotY_sq {K : Type} [LinearOrderedField K] (g : Glm K) (a b : K)
    (w steering baseYaw R : K) (hab : a ^ 2 + b ^ 2 = 1)
    (hg : ∀ d, g.cosDeg d ^ 2 + g.sinDeg d ^ 2 = 1) :
    (followNewPos g (M3.rotY a b) w steering baseYaw R).x ^ 2 +
      (followNewPos g (M3.rotY a b) w steering baseYaw R).z ^ 2 = R ^ 2 := by
  have h := hg (followAngle g steering (-w) baseYaw)
  simp only [followNewPos, M3.rotY, M3.mulVec, V3.dot]
  have e : ∀ c s : K,
      (a * (c * R) + 0 * 0 + b * (s * R)) ^ 2 + (-b * (c * R) + 0 * 0 + a * (s * R)) ^ 2
        = R ^ 2 * ((a ^ 2 + b ^ 2) * (c ^ 2 + s ^ 2)) := fun c s => by ring
  rw [e, hab, h]
  ring

theorem realGlm_trig {g : Glm ℝ} (hg : IsRealGlm g) (d : ℝ) :
    g.cosDeg d ^ 2 + g.sinDeg d ^ 2 = 1 := by
  rw [hg.1, hg.2.1]
  exact Real.cos_sq_add_sin_sq _

/-- Claim C30: over the reals, whenever the chassis orientation is a rotation
about the vertical axis, the horizontal distance between the camera position
computed by the per-frame update and the chassis origin is exactly
`|cameraRadius|`, for every steering value, yaw angular velocity and yaw
offset. -/
theorem C30_follow_distance (g : Glm ℝ) (hg : IsRealGlm g) (a b : ℝ)
    (hab : a ^ 2 + b ^ 2 = 1) (origin : V3 ℝ) (w steering baseYaw R pitch : ℝ) :
    Real.sqrt
      (((cameraFollowPos g (M3.rotY a b) origin w steering baseYaw R pitch).x - origin.x) ^ 2 +
        ((cameraFollowPos g (M3.rotY a b) origin w steering baseYaw R pitch).z - origin.z) ^ 2)
      = |R| := by
  have h := followNewPos_rotY_sq g a b w steering baseYaw R hab (realGlm_trig hg)
  have ex : (cameraFollowPos g (M3.rotY a b) origin w steering baseYaw R pitch).x - origin.x
      = (followNewPos g (M3.rotY a b) w steering baseYaw R).x := by
    simp only [cameraFollowPos]; ring
  have ez : (cameraFollowPos g (M3.rotY a b) origin w steering baseYaw R pitch).z - origin.z
      = (followNewPos g (M3.rotY a b) w steering baseYaw R).z := by
    simp only [cameraFollowPos]; ring
  rw [ex, ez, h, Real.sqrt_sq_eq_abs]

/-- Witness for C30: the real library functions, the chassis unrotated
(`rotY 1 0`), radius `8`. -/
theorem C30_witness :
    Real.sqrt
      (((cameraFollowPos (K := ℝ) ⟨fun d => Real.cos (d * Real.pi / 180),
          fun d => Real.sin (d * Real.pi / 180), Real.sqrt,
          fun y x => Complex.arg ⟨x, y⟩ * 180 / Real.pi⟩
          (M3.rotY 1 0) ⟨0, 0, 0⟩ 0 0 0 8 (-10)).x - 0) ^ 2 +
        ((cameraFollowPos (K := ℝ) ⟨fun d => Real.cos (d * Real.pi / 180),
          fun d => Real.sin (d * Real.pi / 180), Real.sqrt,
          fun y x => Complex.arg ⟨x, y⟩ * 180 / Real.pi⟩
          (M3.rotY 1 0) ⟨0, 0, 0⟩ 0 0 0 8 (-10)).z - 0) ^ 2)
      = |(8 : ℝ)| :=
  C30_follow_distance _ ⟨rfl, rfl, rfl, rfl⟩ 1 0 (by norm_num) ⟨0, 0, 0⟩ 0 0 0 8 (-10)

theorem normalize2_real {g : Glm ℝ} (hg : IsRealGlm g) (x z : ℝ) (h : ¬ (x = 0 ∧ z = 0)) :
    0 < Real.sqrt (x * x + z * z) ∧
    normalize2 g (x, z) =
      some (x * (1 / Real.sqrt (x * x + z * z)), z * (1 / Real.sqrt (x * x + z * z))) := by
  have hd : x * x + z * z ≠ 0 := fun h0 => h (mul_self_add_mul_self_eq_zero.mp h0)
  have hpos : 0 < x * x + z * z :=
    lt_of_le_of_ne (add_nonneg (mul_self_nonneg x) (mul_self_nonneg z)) (Ne.symm hd)
  refine ⟨Real.sqrt_pos.mpr hpos, ?_⟩
  unfold normalize2
  simp only [if_neg hd, hg.2.2.1]

theorem normalize2_zero {K : Type} [LinearOrderedField K] (g : Glm K) :
    normalize2 g ((0 : K), (0 : K)) = none := by
  simp [normalize2]

theorem arg_scaled (x z L : ℝ) (hL : 0 < L) :
    Complex.arg ⟨x * (1 / L), z * (1 / L)⟩ = Complex.arg ⟨x, z⟩ := by
  have e : (⟨x * (1 / L), z * (1 / L)⟩ : ℂ) = ((1 / L : ℝ) : ℂ) * ⟨x, z⟩ := by
    apply Complex.ext <;> simp <;> ring
  rw [e, Complex.arg_real_mul _ (one_div_pos.mpr hL)]

theorem cos_arg_mk (x z : ℝ) (h : ¬ (x = 0 ∧ z = 0)) :
    Real.cos (Complex.arg ⟨x, z⟩) = x / Real.sqrt (x * x + z * z) ∧
    Real.sin (Complex.arg ⟨x, z⟩) = z / Real.sqrt (x * x + z * z) := by
  have hne : (⟨x, z⟩ : ℂ) ≠ 0 := by
    intro h0
    have h1 := congrArg Complex.re h0
    have h2 := congrArg Complex.im h0
    exact h ⟨h1, h2⟩
  constructor
  · rw [Complex.cos_arg hne, Complex.abs_apply, Complex.normSq_apply]
  · rw [Complex.sin_arg, Complex.abs_apply, Complex.normSq_apply]

theorem deg_rad_roundtrip (t : ℝ) : t * 180 / Real.pi * Real.pi / 180 = t := by
  field_simp

theorem cosDeg_pos_of_abs_lt (p : ℝ) (hp : |p| < 90) : 0 < Real.cos (p * Real.pi / 180) := by
  have hpi := Real.pi_pos
  obtain ⟨h1, h2⟩ := abs_lt.mp hp
  apply Real.cos_pos_of_mem_Ioo
  constructor
  · nlinarith
  · nlinarith

/-- The `Front` vector for a yaw that points along `(x, z)`: its horizontal
part is `(x, z)` scaled by `cos(pitch) / |(x, z)|`. -/
theorem frontVector_real {g : Glm ℝ} (hg : IsRealGlm g) (x z pitch : ℝ)
    (h : ¬ (x = 0 ∧ z = 0)) :
    frontVector g (Complex.arg ⟨x, z⟩ * 180 / Real.pi) pitch =
      some ⟨Real.cos (pitch * Real.pi / 180) / Real.sqrt (x * x + z * z) * x,
        Real.sin (pitch * Real.pi / 180),
        Real.cos (pitch * Real.pi / 180) / Real.sqrt (x * x + z * z) * z⟩ := by
  obtain ⟨hc, hs⟩ := cos_arg_mk x z h
  have hd : x * x + z * z ≠ 0 := fun h0 => h (mul_self_add_mul_self_eq_zero.mp h0)
  have hpos : 0 < x * x + z * z :=
    lt_of_le_of_ne (add_nonneg (mul_self_nonneg x) (mul_self_nonneg z)) (Ne.symm hd)
  have hL : 0 < Real.sqrt (x * x + z * z) := Real.sqrt_pos.mpr hpos
  have hLL : Real.sqrt (x * x + z * z) * Real.sqrt (x * x + z * z) = x * x + z * z :=
    Real.mul_self_sqrt hpos.le
  have htrig := Real.cos_sq_add_sin_sq (pitch * Real.pi / 180)
  unfold frontVector normalize3
  simp only [hg.1, hg.2.1, hg.2.2.1, deg_rad_roundtrip, hc, hs, V3.dot]
  have hdot : x / Real.sqrt (x * x + z * z) * Real.cos (pitch * Real.pi / 180) *
        (x / Real.sqrt (x * x + z * z) * Real.cos (pitch * Real.pi / 180)) +
      Real.sin (pitch * Real.pi / 180) * Real.sin (pitch * Real.pi / 180) +
      z / Real.sqrt (x * x + z * z) * Real.cos (pitch * Real.pi / 180) *
        (z / Real.sqrt (x * x + z * z) * Real.cos (pitch * Real.pi / 180)) = 1 := by
    have e : x / Real.sqrt (x * x + z * z) * Real.cos (pitch * Real.pi / 180) *
        (x / Real.sqrt (x * x + z * z) * Real.cos (pitch * Real.pi / 180)) +
      Real.sin (pitch * Real.pi / 180) * Real.sin (pitch * Real.pi / 180) +
      z / Real.sqrt (x * x + z * z) * Real.cos (pitch * Real.pi / 180) *
        (z / Real.sqrt (x * x + z * z) * Real.cos (pitch * Real.pi / 180))
        = Real.cos (pitch * Real.pi / 180) ^ 2 * ((x * x + z * z) /
            (Real.sqrt (x * x + z * z) * Real.sqrt (x * x + z * z))) +
          Real.sin (pitch * Real.pi / 180) ^ 2 := by
      ring
    rw [e, hLL, div_self hd, mul_one, htrig]
  rw [hdot, if_neg one_ne_zero, Real.sqrt_one]
  have e1 : ∀ q : ℝ, q / Real.sqrt (x * x + z * z) * Real.cos (pitch * Real.pi / 180) * (1 / 1)
      = Real.cos (pitch * Real.pi / 180) / Real.sqrt (x * x + z * z) * q := fun q => by ring
  rw [e1, e1, div_one, mul_one]

/-- Claim C24: in follow mode, over the reals, the per-frame camera update
leaves `Pitch` unchanged; when the horizontal vector `(dx, dz)` from the new
camera position to the chassis origin is non-zero it sets `Yaw` to
`atan2(dz, dx)` in degrees, and when moreover `|Pitch| < 90` the horizontal part
of the resulting `Front` vector is a positive multiple of `(dx, dz)`. -/
theorem C24_follow_orientation (g : Glm ℝ) (hg : IsRealGlm g) (basis : M3 ℝ)
    (origin : V3 ℝ) (w steering baseYaw R : ℝ) (cam : FollowCam ℝ)
    (hne : ¬ (origin.x - (cameraFollowPos g basis origin w steering baseYaw R cam.Pitch).x = 0 ∧
      origin.z - (cameraFollowPos g basis origin w steering baseYaw R cam.Pitch).z = 0))
    (hp : |cam.Pitch| < 90) :
    (∀ c, followUpdate g basis origin w steering baseYaw R cam = some c →
      c.Pitch = cam.Pitch) ∧
    ∃ cam2 front k,
      followUpdate g basis origin w steering baseYaw R cam = some cam2 ∧
      cam2.Pitch = cam.Pitch ∧
      cam2.Yaw = Complex.arg
        ⟨origin.x - (cameraFollowPos g basis origin w steering baseYaw R cam.Pitch).x,
         origin.z - (cameraFollowPos g basis origin w steering baseYaw R cam.Pitch).z⟩
          * 180 / Real.pi ∧
      frontVector g cam2.Yaw cam2.Pitch = some front ∧
      0 < k ∧
      front.x = k * (origin.x - (cameraFollowPos g basis origin w steering baseYaw R cam.Pitch).x) ∧
      front.z = k * (origin.z - (cameraFollowPos g basis origin w steering baseYaw R cam.Pitch).z) := by
  have ex : origin.x - (cameraFollowPos g basis origin w steering baseYaw R cam.Pitch).x
      = (lookAtArgs g basis w steering baseYaw R).1 := by
    simp only [cameraFollowPos, lookAtArgs]; ring
  have ez : origin.z - (cameraFollowPos g basis origin w steering baseYaw R cam.Pitch).z
      = (lookAtArgs g basis w steering baseYaw R).2.2 := by
    simp only [cameraFollowPos, lookAtArgs]; ring
  rw [ex, ez] at hne ⊢
  constructor
  · intro c hc
    unfold followUpdate at hc
    dsimp only at hc
    rcases Option.map_eq_some'.mp hc with ⟨y, _, rfl⟩
    rfl
  · obtain ⟨hL, hn⟩ := normalize2_real hg _ _ hne
    have hpos := cosDeg_pos_of_abs_lt cam.Pitch hp
    have hfu : followUpdate g basis origin w steering baseYaw R cam =
        some ⟨cameraFollowPos g basis origin w steering baseYaw R cam.Pitch,
          Complex.arg ⟨(lookAtArgs g basis w steering baseYaw R).1,
            (lookAtArgs g basis w steering baseYaw R).2.2⟩ * 180 / Real.pi, cam.Pitch⟩ := by
      unfold followUpdate lookAtYaw
      dsimp only
      rw [hn, hg.2.2.2]
      dsimp only [Option.map_some']
      rw [arg_scaled _ _ _ hL]
    exact ⟨_, _, _, hfu, rfl, rfl, frontVector_real hg _ _ _ hne, div_pos hpos hL, rfl, rfl⟩

/-- Witness for C24: the real library functions, the chassis at the origin and
unrotated, steering, yaw velocity and yaw offset `0`, radius `8`, and the camera
of `App.cpp` (`Pitch = -10`). -/
theorem C24_witness :
    ∃ cam2, followUpdate (K := ℝ) ⟨fun d => Real.cos (d * Real.pi / 180),
        fun d => Real.sin (d * Real.pi / 180), Real.sqrt,
        fun y x => Complex.arg ⟨x, y⟩ * 180 / Real.pi⟩
        M3.identity ⟨0, 0, 0⟩ 0 0 0 8 ⟨⟨0, 25 / 10, 8⟩, -90, -10⟩ = some cam2 ∧
      cam2.Pitch = -10 := by
  have ha : followAngle (K := ℝ) ⟨fun d => Real.cos (d * Real.pi / 180),
        fun d => Real.sin (d * Real.pi / 180), Real.sqrt,
        fun y x => Complex.arg ⟨x, y⟩ * 180 / Real.pi⟩ 0 0 0 = 90 := by
    simp [followAngle]
  obtain ⟨c, _, _, h1, h2, _⟩ :=
    (C24_follow_orientation (⟨fun d => Real.cos (d * Real.pi / 180),
        fun d => Real.sin (d * Real.pi / 180), Real.sqrt,
        fun y x => Complex.arg ⟨x, y⟩ * 180 / Real.pi⟩ : Glm ℝ) ⟨rfl, rfl, rfl, rfl⟩
      M3.identity ⟨0, 0, 0⟩ 0 0 0 8 ⟨⟨0, 25 / 10, 8⟩, -90, -10⟩
      (by
        simp [cameraFollowPos, followNewPos, M3.identity, M3.mulVec, V3.dot, ha,
          real_sinDeg_ninety])
      (by norm_num [abs_lt])).2
  exact ⟨c, h1, h2⟩

end GlCars
